import Mathlib

/-!
Verification of the eduvids parametric diagram composition engine.

The illustration generators (sun, heart, star, star field, cloud, cell,
earth, firework, lightning, moon, tree, water drop) are embedded directly
from their Python sources under docs/diagrams/illustrations.  The core
builder functions (point-on-circle resolution, angle-arc resolution, the
circle-geometry, atom, bar-chart and flowchart builders) appear in the
repository only through call sites; those definitions are modelled from the
specification and are marked as such in their doc comments.

Coordinates are real numbers (the source computes with floats); the
constant z = 0 third coordinate carried by the source is dropped.  Manim
VGroups are flattened to ordered primitive lists, which preserves paint
order and primitive counts.  Randomness (numpy uniform draws) is made
explicit: a random source is a stream of draws in the unit interval, and
each uniform(a, b) call consumes one draw u as a + u * (b - a).
-/

namespace Eduvids

/-- A 2D point.  The source carries a constant z = 0 which is dropped. -/
abbrev Point : Type := ℝ × ℝ

/-- Style of a primitive: fill color, fill opacity, stroke color, stroke
width, stroke opacity.  Color constants are embedded as strings. -/
structure Style where
  fillColor : String
  fillOpacity : ℝ
  strokeColor : String
  strokeWidth : ℝ
  strokeOpacity : ℝ

/-- Atomic drawable shapes, following the manim calls made by the source:
circle (center, radius), ellipse (center, width, height), rectangle
(center, width, height), polygon (vertex list), line (two endpoints),
arc (center, radius, start angle, sweep), dot (center, radius), and text
label (anchor position, text). -/
inductive Primitive
  | circle (center : Point) (radius : ℝ) (style : Style)
  | ellipse (center : Point) (width height : ℝ) (style : Style)
  | rectangle (center : Point) (width height : ℝ) (style : Style)
  | polygon (vertices : List Point) (style : Style)
  | line (p q : Point) (style : Style)
  | arc (center : Point) (radius startAngle sweep : ℝ) (style : Style)
  | dot (center : Point) (radius : ℝ) (style : Style)
  | label (pos : Point) (text : String) (style : Style)

/-- The style carried by a primitive. -/
def styleOf : Primitive → Style
  | .circle _ _ st => st
  | .ellipse _ _ _ st => st
  | .rectangle _ _ _ st => st
  | .polygon _ st => st
  | .line _ _ st => st
  | .arc _ _ _ _ st => st
  | .dot _ _ st => st
  | .label _ _ st => st

/-- Fill opacity of a primitive (used to recognise glow layers). -/
def primFillOpacity (p : Primitive) : ℝ := (styleOf p).fillOpacity

def translatePoint (v p : Point) : Point := (p.1 + v.1, p.2 + v.2)

/-- Translation of a primitive (manim shift / move_to from the origin). -/
def translatePrim (v : Point) : Primitive → Primitive
  | .circle c r st => .circle (translatePoint v c) r st
  | .ellipse c w h st => .ellipse (translatePoint v c) w h st
  | .rectangle c w h st => .rectangle (translatePoint v c) w h st
  | .polygon vs st => .polygon (vs.map (translatePoint v)) st
  | .line p q st => .line (translatePoint v p) (translatePoint v q) st
  | .arc c r a s st => .arc (translatePoint v c) r a s st
  | .dot c r st => .dot (translatePoint v c) r st
  | .label p t st => .label (translatePoint v p) t st

def scalePoint (k : ℝ) (p : Point) : Point := (k * p.1, k * p.2)

/-- Uniform scaling of a primitive about the origin. -/
def scalePrim (k : ℝ) : Primitive → Primitive
  | .circle c r st => .circle (scalePoint k c) (k * r) st
  | .ellipse c w h st => .ellipse (scalePoint k c) (k * w) (k * h) st
  | .rectangle c w h st => .rectangle (scalePoint k c) (k * w) (k * h) st
  | .polygon vs st => .polygon (vs.map (scalePoint k)) st
  | .line p q st => .line (scalePoint k p) (scalePoint k q) st
  | .arc c r a s st => .arc (scalePoint k c) (k * r) a s st
  | .dot c r st => .dot (scalePoint k c) (k * r) st
  | .label p t st => .label (scalePoint k p) t st

/-- A random source: the stream of unit-interval draws consumed by the
numpy uniform calls of the randomized builders. -/
abbrev Rng : Type := ℕ → ℝ

/-- Every draw of the stream lies in the unit interval, as numpy
guarantees for np.random.uniform. -/
def ValidRng (rng : Rng) : Prop := ∀ n, 0 ≤ rng n ∧ rng n ≤ 1

/-- np.random.uniform(a, b) realised from a unit draw u. -/
def uniformOn (a b u : ℝ) : ℝ := a + u * (b - a)

noncomputable def TAU : ℝ := 2 * Real.pi

/-! ## Illustration builders (embedded from docs/diagrams/illustrations) -/

/-- The six (x, y, r) circle factors of create_cloud, from cloud.py. -/
def cloudCircleSpec : List (ℝ × ℝ × ℝ) :=
  [(0, 0, 0.4), (-0.35, 0.05, 0.35), (0.35, 0.05, 0.35),
   (-0.2, 0.2, 0.3), (0.2, 0.2, 0.3), (0, 0.15, 0.35)]

/-- create_cloud from cloud.py: six overlapping circles, each of radius
width * r shifted to (x * width, y * width). -/
def create_cloud (width : ℝ) (color : String) : List Primitive :=
  cloudCircleSpec.map (fun s =>
    Primitive.circle (s.1 * width, s.2.1 * width) (width * s.2.2)
      ⟨color, 0.95, "", 0, 1⟩)

/-- create_heart from heart.py: bottom triangle then two top circles.
The bottom polygon is built from LEFT/RIGHT/DOWN multiples of size and
then shifted down by size * 0.05. -/
def create_heart (size : ℝ) (color : String) : List Primitive :=
  [Primitive.polygon
     [(-(size * 0.55), -(size * 0.05)), (size * 0.55, -(size * 0.05)),
      (0, -(size * 0.6) - size * 0.05)] ⟨color, 1, "", 0, 1⟩,
   Primitive.circle (-(size * 0.25), size * 0.15) (size * 0.35)
     ⟨color, 1, "", 0, 1⟩,
   Primitive.circle (size * 0.25, size * 0.15) (size * 0.35)
     ⟨color, 1, "", 0, 1⟩]

/-- The vertex list of create_star from star.py: 2 * numPoints vertices
alternating between the outer radius and radius * innerFrac, starting
from angle -PI/2. -/
noncomputable def starPoints (radius : ℝ) (numPoints : ℕ) (innerFrac : ℝ) :
    List Point :=
  (List.range (numPoints * 2)).map (fun i =>
    let angle : ℝ := i * Real.pi / numPoints - Real.pi / 2
    let r : ℝ := if i % 2 = 0 then radius else radius * innerFrac
    (r * Real.cos angle, r * Real.sin angle))

/-- create_star from star.py: a single filled polygon. -/
noncomputable def create_star (radius : ℝ) (numPoints : ℕ) (color : String)
    (innerFrac : ℝ) : Primitive :=
  Primitive.polygon (starPoints radius numPoints innerFrac)
    ⟨color, 1, "WHITE", 1, 1⟩

/-- One star of create_star_field: its move_to target, its sampled size,
and the placed polygon. -/
structure FieldStar where
  center : Point
  size : ℝ
  shape : Primitive

/-- create_star_field from star.py: num_stars stars, each with size
uniform(0.05, 0.2), x uniform(-area_width/2, area_width/2) and
y uniform(-area_height/2, area_height/2); star k consumes draws
3k, 3k+1, 3k+2 of the stream. -/
noncomputable def create_star_field (numStars : ℕ) (areaWidth areaHeight : ℝ)
    (rng : Rng) : List FieldStar :=
  (List.range numStars).map (fun k =>
    let size := uniformOn 0.05 0.2 (rng (3 * k))
    let x := uniformOn (-(areaWidth / 2)) (areaWidth / 2) (rng (3 * k + 1))
    let y := uniformOn (-(areaHeight / 2)) (areaHeight / 2) (rng (3 * k + 2))
    ⟨(x, y), size, translatePrim (x, y) (create_star size 5 "WHITE" 0.4)⟩)

/-- The five outer glow circles of create_sun from sun.py: the loop runs
i = 5, 4, 3, 2, 1, giving radius radius + i * 0.15 and fill opacity
0.08 * (6 - i). -/
def sunGlow (radius : ℝ) : List Primitive :=
  [Primitive.circle (0, 0) (radius + 5 * 0.15) ⟨"YELLOW", 0.08 * (6 - 5), "", 0, 1⟩,
   Primitive.circle (0, 0) (radius + 4 * 0.15) ⟨"YELLOW", 0.08 * (6 - 4), "", 0, 1⟩,
   Primitive.circle (0, 0) (radius + 3 * 0.15) ⟨"YELLOW", 0.08 * (6 - 3), "", 0, 1⟩,
   Primitive.circle (0, 0) (radius + 2 * 0.15) ⟨"YELLOW", 0.08 * (6 - 2), "", 0, 1⟩,
   Primitive.circle (0, 0) (radius + 1 * 0.15) ⟨"YELLOW", 0.08 * (6 - 1), "", 0, 1⟩]

/-- Ray i of create_sun: a triangle at angle i * TAU / 12. -/
noncomputable def sunRay (radius : ℝ) (i : ℕ) : Primitive :=
  let angle : ℝ := i * TAU / 12
  Primitive.polygon
    [(radius * 1.1 * Real.cos (angle - 0.08), radius * 1.1 * Real.sin (angle - 0.08)),
     (radius * 1.1 * Real.cos (angle + 0.08), radius * 1.1 * Real.sin (angle + 0.08)),
     (radius * 1.5 * Real.cos angle, radius * 1.5 * Real.sin angle)]
    ⟨"YELLOW", 0.9, "", 0, 1⟩

/-- create_sun from sun.py: five glow circles back-to-front, then the
opaque core, the inner orange disc, and twelve triangular rays. -/
noncomputable def create_sun (radius : ℝ) : List Primitive :=
  sunGlow radius ++
  [Primitive.circle (0, 0) radius ⟨"YELLOW", 1, "", 0, 1⟩,
   Primitive.circle (0, 0) (radius * 0.7) ⟨"ORANGE", 0.3, "", 0, 1⟩] ++
  (List.range 12).map (sunRay radius)

/-- Ribosome k of create_cell: a dot at a uniformly sampled position in
[-1.5, 1.5] x [-0.8, 0.8], consuming draws 2k and 2k+1. -/
def cellRibosome (rng : Rng) (k : ℕ) : Primitive :=
  Primitive.dot
    (uniformOn (-1.5) 1.5 (rng (2 * k)), uniformOn (-0.8) 0.8 (rng (2 * k + 1)))
    0.03 ⟨"BLUE", 1, "", 0, 1⟩

/-- create_cell from cell.py: cytoplasm, membrane, nucleus, nucleolus,
two mitochondria, and fifteen randomly scattered ribosome dots. -/
def create_cell (rng : Rng) : List Primitive :=
  [Primitive.ellipse (0, 0) 3.8 2.3 ⟨"YELLOW_A", 0.2, "", 0, 1⟩,
   Primitive.ellipse (0, 0) 4 2.5 ⟨"", 0, "YELLOW_E", 3, 1⟩,
   Primitive.circle (-0.5, 0) 0.5 ⟨"PURPLE", 0.6, "PURPLE", 4, 1⟩,
   Primitive.circle (-0.5, 0) 0.15 ⟨"DARK_BROWN", 0.8, "DARK_BROWN", 4, 1⟩,
   Primitive.ellipse (1, 0.5) 0.5 0.25 ⟨"ORANGE", 0.7, "ORANGE", 4, 1⟩,
   Primitive.ellipse (0.5, -0.6) 0.4 0.2 ⟨"ORANGE", 0.7, "ORANGE", 4, 1⟩] ++
  (List.range 15).map (cellRibosome rng)

/-- create_earth from earth.py: atmosphere glow, ocean disc, three
continent ellipses, and the northern ice-cap arc (an arc of sweep
0.4 * PI rotated by 0.3 * PI and shifted up by 0.7 * radius). -/
noncomputable def create_earth (radius : ℝ) : List Primitive :=
  [Primitive.circle (0, 0) (radius * 1.08) ⟨"BLUE", 0.15, "", 0, 1⟩,
   Primitive.circle (0, 0) radius ⟨"#1E90FF", 1, "", 0, 1⟩,
   Primitive.ellipse (-(radius * 0.3), radius * 0.3) (radius * 0.6) (radius * 0.5)
     ⟨"GREEN", 0.9, "", 0, 1⟩,
   Primitive.ellipse (radius * 0.2, 0) (radius * 0.4) (radius * 0.8)
     ⟨"GREEN", 0.9, "", 0, 1⟩,
   Primitive.ellipse (radius * 0.4, -(radius * 0.4)) (radius * 0.3) (radius * 0.2)
     ⟨"GREEN", 0.9, "", 0, 1⟩,
   Primitive.arc (0, radius * 0.7) radius (Real.pi * 0.3) (Real.pi * 0.4)
     ⟨"WHITE", 0.9, "", 0, 1⟩]

/-- The default spark colors of create_firework. -/
def fireworkDefaultColors : List String :=
  ["RED", "YELLOW", "ORANGE", "PINK", "CYAN", "GREEN"]

/-- Spark i of create_firework: the main spark line (whose start is
0.2 * end_point / length as in the source), its tip dot, and two
secondary sparks.  Spark i consumes draws 6i .. 6i+5 of the stream. -/
noncomputable def fireworkSpark (radius : ℝ) (colors : List String)
    (numSparks : ℕ) (rng : Rng) (i : ℕ) : List Primitive :=
  let angle : ℝ := i * TAU / numSparks + uniformOn (-0.1) 0.1 (rng (6 * i))
  let len : ℝ := radius * uniformOn 0.7 1.0 (rng (6 * i + 1))
  let color := colors.getD (i % colors.length) "WHITE"
  let endPt : Point := (len * Real.cos angle, len * Real.sin angle)
  let subSpark := fun (j : ℕ) =>
    let subAngle := angle + uniformOn (-0.3) 0.3 (rng (6 * i + 2 + 2 * j))
    let subLen := len * uniformOn 0.3 0.6 (rng (6 * i + 3 + 2 * j))
    Primitive.line (0.3 * endPt.1, 0.3 * endPt.2)
      (subLen * Real.cos subAngle, subLen * Real.sin subAngle)
      ⟨"", 0, color, 1.5, 0.7⟩
  [Primitive.line (0.2 * endPt.1 / len, 0.2 * endPt.2 / len) endPt
     ⟨"", 0, color, 3, 1⟩,
   Primitive.dot endPt 0.06 ⟨color, 1, color, 4, 1⟩,
   subSpark 0, subSpark 1]

/-- create_firework from firework.py: a central flash plus four
primitives per spark; the final move_to(center) is the translation of
the origin-built group by center.  With an empty colors list and at
least one spark the source raises ZeroDivisionError at
colors[i % len(colors)] (i % 0), modelled as none; fireworkSpark is only
reached with a nonempty colors list, where its getD fallback is never
taken since i % len(colors) < len(colors). -/
noncomputable def create_firework (center : Point) (radius : ℝ)
    (numSparks : ℕ) (colors : List String) (rng : Rng) :
    Option (List Primitive) :=
  if colors = [] ∧ numSparks ≠ 0 then none
  else some
    (((Primitive.circle (0, 0) (radius * 0.15) ⟨"WHITE", 1, "", 0, 1⟩) ::
      (List.range numSparks).flatMap (fireworkSpark radius colors numSparks rng)).map
      (translatePrim center))

/-- The six bolt vertices of create_lightning from lightning.py. -/
def lightningPoints (height : ℝ) : List Point :=
  [(0, height * 0.5), (0.3, height * 0.2), (-0.1, height * 0.25),
   (0.2, -(height * 0.1)), (-0.2, -(height * 0.05)), (0, -(height * 0.5))]

/-- Scaling about a fixed point (manim scale, which scales about the
bounding-box center). -/
def scaleAbout (c : Point) (k : ℝ) (p : Point) : Point :=
  (c.1 + k * (p.1 - c.1), c.2 + k * (p.2 - c.2))

/-- create_lightning from lightning.py: the glow copy (scaled by 1.15
about the bolt's bounding-box center (0.05, 0), fill opacity 0.3, no
stroke) comes first, then the bolt itself. -/
def create_lightning (height : ℝ) (color : String) : List Primitive :=
  [Primitive.polygon ((lightningPoints height).map (scaleAbout (0.05, 0) 1.15))
     ⟨color, 0.3, "", 0, 1⟩,
   Primitive.polygon (lightningPoints height) ⟨color, 1, "WHITE", 2, 1⟩]

/-- The (cx, cy, cr) crater factors of the full moon, from moon.py. -/
def moonCraterSpec : List (ℝ × ℝ × ℝ) :=
  [(0.3, 0.4, 0.15), (-0.2, -0.3, 0.2), (0.4, -0.2, 0.1), (-0.4, 0.2, 0.12)]

/-- create_moon from moon.py.  Full phase: body plus four craters.
Any other phase: crescent, whose glow circle is placed at the back
(add_to_back), then the body and the offset shadow circle. -/
def create_moon (phase : String) (radius : ℝ) : List Primitive :=
  if phase = "full" then
    Primitive.circle (0, 0) radius ⟨"#E8E8E8", 1, "GRAY", 1, 1⟩ ::
    moonCraterSpec.map (fun c =>
      Primitive.circle (c.1 * radius, c.2.1 * radius) (radius * c.2.2)
        ⟨"#CCCCCC", 0.6, "#AAAAAA", 1, 1⟩)
  else
    [Primitive.circle (0, 0) (radius * 1.15) ⟨"#F5F5DC", 0.1, "", 0, 1⟩,
     Primitive.circle (0, 0) radius ⟨"#F5F5DC", 1, "", 0, 1⟩,
     Primitive.circle (radius * 0.4, 0) (radius * 0.85) ⟨"#1E1E1E", 1, "", 0, 1⟩]

/-- The (w, h, y, shade) foliage layer factors of create_tree; the final
set_fill overrides the initial GREEN with the per-layer shade. -/
def treeLayerSpec : List (ℝ × ℝ × ℝ × String) :=
  [(0.8, 0.4, 0.15, "#228B22"), (0.65, 0.35, 0.35, "#32CD32"),
   (0.5, 0.3, 0.5, "#2E8B57")]

/-- create_tree from tree.py: the trunk rectangle then three triangular
foliage layers, each shifted up by y * height. -/
def create_tree (height : ℝ) : List Primitive :=
  Primitive.rectangle (0, -(height * 0.25)) (height * 0.15) (height * 0.35)
    ⟨"#8B4513", 1, "", 0, 1⟩ ::
  treeLayerSpec.map (fun l =>
    Primitive.polygon
      [(-(height * l.1 * 0.5), height * l.2.2.1),
       (height * l.1 * 0.5, height * l.2.2.1),
       (0, height * l.2.1 + height * l.2.2.1)]
      ⟨l.2.2.2, 0.9, "", 0, 1⟩)

/-- create_water_drop from water_drop.py: body ellipse, pointed top
triangle (shifted up by 0.1 * height), and the highlight ellipse. -/
def create_water_drop (height : ℝ) (color : String) : List Primitive :=
  [Primitive.ellipse (0, -(height * 0.15)) (height * 0.6) (height * 0.7)
     ⟨color, 0.8, "", 0, 1⟩,
   Primitive.polygon
     [(-(height * 0.1), height * 0.1), (height * 0.1, height * 0.1),
      (0, height * 0.5 + height * 0.1)] ⟨color, 0.8, "", 0, 1⟩,
   Primitive.ellipse (-(height * 0.1), height * 0.05) (height * 0.15) (height * 0.25)
     ⟨"WHITE", 0.6, "", 0, 1⟩]

/-! ## Core engine (the builders behind the docs/diagrams call sites)

The functions below are called by the repository scripts but implemented
outside it; each is modelled from the specification text, as noted in its
doc comment. -/

/-- Modelled from the spec: the error taxonomy of section 7 (the builder
implementations are not in the repository). -/
inductive BuildError
  | unknownPreset
  | indexOutOfRange
  | degenerateRange
  | degenerateAngle
  | schemaMismatch
deriving DecidableEq

noncomputable def degToRad (d : ℝ) : ℝ := d * Real.pi / 180

noncomputable def radToDeg (x : ℝ) : ℝ := x * 180 / Real.pi

/-- Modelled from the spec: pointOnCircle, the polar-to-cartesian
conversion of GeometryResolver, angle in degrees counter-clockwise from
the positive x-axis (the implementation is not in the repository). -/
noncomputable def pointOnCircle (center : Point) (radius : ℝ)
    (angleDegrees : ℝ) : Point :=
  (center.1 + radius * Real.cos (degToRad angleDegrees),
   center.2 + radius * Real.sin (degToRad angleDegrees))

open Classical in
/-- Modelled from the spec: scaleProportional, the linear mapping of
GeometryResolver; a zero domain maximum is a DegenerateRangeError (the
implementation is not in the repository). -/
noncomputable def scaleProportional (value domainMax rangeMax : ℝ) :
    Except BuildError ℝ :=
  if domainMax = 0 then .error .degenerateRange
  else .ok (value / domainMax * rangeMax)

/-- Modelled from the spec: presetTriangle resolves the named presets to
fixed vertex coordinates and fails with UnknownPresetError otherwise (the
implementation is not in the repository; the right-angle vertex is the
third one, matching the right_triangle_pythagorean.py call site whose
angle labels are empty, empty, 90 degrees). -/
noncomputable def presetTriangle (name : String) : Except BuildError (List Point) :=
  if name = "equilateral" then .ok [(0, Real.sqrt 3), (-1, 0), (1, 0)]
  else if name = "right_triangle" then .ok [(-2, 2), (2, -1), (-2, -1)]
  else .error .unknownPreset

def vsub (p q : Point) : Point := (p.1 - q.1, p.2 - q.2)

def dotP (v w : Point) : ℝ := v.1 * w.1 + v.2 * w.2

noncomputable def normP (v : Point) : ℝ := Real.sqrt (v.1 ^ 2 + v.2 ^ 2)

/-- A point viewed as a complex number, for direction arithmetic. -/
noncomputable def toC (v : Point) : ℂ := ⟨v.1, v.2⟩

/-- The non-reflex angle between two vectors, in radians:
acos(dot(v1, v2) / (|v1| |v2|)) as given in the spec. -/
noncomputable def angleBetweenRad (v w : Point) : ℝ :=
  Real.arccos (dotP v w / (normP v * normP w))

/-- The arc emitted by AngleArcResolver: a short arc of fixed radius
centered at the vertex, starting at the direction of v1 and sweeping by
the signed shortest rotation onto the direction of v2, together with the
resolved angle in degrees. -/
structure AngleArc where
  center : Point
  radius : ℝ
  startDir : ℝ
  sweep : ℝ
  angleDeg : ℝ

/-- Modelled from the spec: AngleArcResolver (the implementation is not
in the repository).  v1 and v2 are the rays from the vertex; a
zero-length ray is a DegenerateAngleError; the resolved angle is
acos(dot / (|v1| |v2|)); the arc starts at the direction of v1 and its
sweep is the principal (shortest, hence non-reflex) signed rotation from
the direction of v1 to the direction of v2. -/
noncomputable def resolve_angle_arc (vertex pa pb : Point) :
    Except BuildError AngleArc :=
  let v1 := vsub pa vertex
  let v2 := vsub pb vertex
  if v1 = ((0 : ℝ), (0 : ℝ)) ∨ v2 = ((0 : ℝ), (0 : ℝ)) then .error .degenerateAngle
  else .ok ⟨vertex, 0.4, Complex.arg (toC v1), Complex.arg (toC v2 / toC v1),
            radToDeg (angleBetweenRad v1 v2)⟩

/-- The structured output of the circle-geometry builder. -/
structure CircleGeometry where
  circle : Primitive
  pointDots : List Primitive
  chordLines : List Primitive
  radiusLines : List Primitive
  tangentLines : List Primitive
  centralArc : Option AngleArc
  inscribedArc : Option AngleArc

/-- The index-validity predicate of the circle-geometry builder: every
chord, radius, tangent and angle-spec index must reference a point of
points_on_circle. -/
def CircleIdxValid (n : ℕ) (chords : List (ℕ × ℕ × String))
    (radii tangents : List ℕ) (central : Option (ℕ × ℕ × String))
    (inscribed : Option (ℕ × ℕ × ℕ × String)) : Prop :=
  (∀ c ∈ chords, c.1 < n ∧ c.2.1 < n) ∧ (∀ i ∈ radii, i < n) ∧
  (∀ i ∈ tangents, i < n) ∧
  (∀ c, central = some c → c.1 < n ∧ c.2.1 < n) ∧
  (∀ c, inscribed = some c → c.1 < n ∧ c.2.1 < n ∧ c.2.2.1 < n)

instance circleIdxValidDec (n : ℕ) (chords : List (ℕ × ℕ × String))
    (radii tangents : List ℕ) (central : Option (ℕ × ℕ × String))
    (inscribed : Option (ℕ × ℕ × ℕ × String)) :
    Decidable (CircleIdxValid n chords radii tangents central inscribed) := by
  unfold CircleIdxValid
  infer_instance

/-- The resolution of an optional central-angle spec (i, j, label): the
angle at the circle's center with rays to points i and j. -/
noncomputable def resolveCentral (pts : List Point) :
    Option (ℕ × ℕ × String) → Except BuildError (Option AngleArc)
  | none => .ok none
  | some c =>
      Except.map some
        (resolve_angle_arc (0, 0) (pts.getD c.1 (0, 0)) (pts.getD c.2.1 (0, 0)))

/-- The resolution of an optional inscribed-angle spec (i, j, k, label):
the angle at point j with rays to points i and k, matching the
inscribed_angle.py call site where the vertex index is the middle one. -/
noncomputable def resolveInscribed (pts : List Point) :
    Option (ℕ × ℕ × ℕ × String) → Except BuildError (Option AngleArc)
  | none => .ok none
  | some c =>
      Except.map some
        (resolve_angle_arc (pts.getD c.2.1 (0, 0)) (pts.getD c.1 (0, 0))
          (pts.getD c.2.2.1 (0, 0)))

/-- The geometry emitted by the circle builder once validation and angle
resolution have succeeded. -/
noncomputable def circleGeometryBody (radius : ℝ) (pointAngles : List ℝ)
    (chords : List (ℕ × ℕ × String)) (radii : List ℕ) (tangents : List ℕ)
    (cArc iArc : Option AngleArc) : CircleGeometry :=
  let pts := pointAngles.map (pointOnCircle (0, 0) radius)
  let getPt := fun (i : ℕ) => pts.getD i (0, 0)
  ⟨Primitive.circle (0, 0) radius ⟨"BLUE", 0.1, "BLUE", 4, 1⟩,
   pts.map (fun p => Primitive.dot p 0.06 ⟨"WHITE", 1, "", 0, 1⟩),
   chords.map (fun c => Primitive.line (getPt c.1) (getPt c.2.1)
     ⟨"", 0, "BLUE", 2, 1⟩),
   radii.map (fun i => Primitive.line (0, 0) (getPt i) ⟨"", 0, "BLUE", 2, 1⟩),
   tangents.map (fun i =>
     let a := degToRad (pointAngles.getD i 0)
     let p := getPt i
     Primitive.line
       (p.1 - 1.5 * (-(Real.sin a)), p.2 - 1.5 * Real.cos a)
       (p.1 + 1.5 * (-(Real.sin a)), p.2 + 1.5 * Real.cos a)
       ⟨"", 0, "BLUE", 2, 1⟩),
   cArc, iArc⟩

/-- Modelled from the spec: CircleGeometryBuilder (the implementation is
not in the repository).  All index validation happens before any geometry
is emitted; an out-of-range index is an IndexOutOfRangeError.  Points are
resolved on a circle centered at the origin; a chord joins two resolved
points; a radius joins the center to a point; a tangent at a point runs
perpendicular to that point's radius vector; the optional central and
inscribed angle specs are resolved by the angle-arc resolver. -/
noncomputable def create_circle_geometry (radius : ℝ) (pointAngles : List ℝ)
    (pointLabels : List String) (chords : List (ℕ × ℕ × String))
    (radii : List ℕ) (tangents : List ℕ) (central : Option (ℕ × ℕ × String))
    (inscribed : Option (ℕ × ℕ × ℕ × String)) :
    Except BuildError CircleGeometry :=
  let n := pointAngles.length
  if CircleIdxValid n chords radii tangents central inscribed then
    let pts := pointAngles.map (pointOnCircle (0, 0) radius)
    match resolveCentral pts central, resolveInscribed pts inscribed with
    | .ok cArc, .ok iArc =>
        .ok (circleGeometryBody radius pointAngles chords radii tangents cArc iArc)
    | .error e, _ => .error e
    | .ok _, .error e => .error e
  else .error .indexOutOfRange

/-- One electron shell: its circle radius and the angular positions (in
degrees) of its electron dots. -/
structure ElectronShell where
  radius : ℝ
  dotAngles : List ℝ

/-- Shell radii increase linearly with shell index. -/
noncomputable def shellRadius (i : ℕ) : ℝ := 0.8 + 0.5 * i

/-- The dot angles of a shell with occupancy c: c dots evenly spaced by
360 / c degrees. -/
noncomputable def shellDotAngles (c : ℕ) : List ℝ :=
  (List.range c).map (fun (j : ℕ) => (j : ℝ) * (360 / (c : ℝ)))

/-- The shells of the atom builder: shell i with occupancy c carries c
electron dots at angles j * (360 / c) for j < c. -/
noncomputable def buildShells : ℕ → List ℕ → List ElectronShell
  | _, [] => []
  | i, c :: rest =>
    ⟨shellRadius i, shellDotAngles c⟩ :: buildShells (i + 1) rest

/-- The structured output of the atom builder. -/
structure AtomDiagram where
  nucleus : Primitive
  symbol : String
  shells : List ElectronShell

/-- Modelled from the spec: AtomBuilder (the implementation is not in the
repository).  One concentric shell circle per electron_config entry,
radius increasing linearly with shell index; count dots evenly spaced by
360 / count degrees on each shell; a nucleus at the center. -/
noncomputable def create_atom_diagram (symbol : String) (config : List ℕ) :
    AtomDiagram :=
  ⟨Primitive.circle (0, 0) 0.35 ⟨"RED", 1, "", 0, 1⟩, symbol, buildShells 0 config⟩

/-- The total number of rendered electron dots of an atom diagram. -/
def totalElectronDots (a : AtomDiagram) : ℕ :=
  (a.shells.map (fun s => s.dotAngles.length)).sum

/-- The maximum of a value list (zero for the empty list). -/
def listMax (l : List ℝ) : ℝ := l.foldr max 0

/-- One bar of the bar chart: x position, height, and the value it
represents. -/
structure Bar where
  x : ℝ
  height : ℝ
  value : ℝ

open Classical in
/-- Modelled from the spec: BarChartBuilder (the implementation is not in
the repository).  Bar i has height scaleProportional(value_i, max(values),
chartHeight) and x position i * (bar_width + gap); a zero maximum is a
DegenerateRangeError, as for scaleProportional. -/
noncomputable def create_bar_chart (values : List ℝ)
    (chartHeight barWidth gap : ℝ) : Except BuildError (List Bar) :=
  let m := listMax values
  if m = 0 then .error .degenerateRange
  else .ok ((List.range values.length).map (fun (i : ℕ) =>
    ⟨(i : ℝ) * (barWidth + gap), values.getD i 0 / m * chartHeight,
     values.getD i 0⟩))

/-- The step types of the flowchart builder. -/
inductive StepType
  | start
  | process
  | decision
  | finish
deriving DecidableEq

/-- A flowchart step descriptor: text and type. -/
structure FlowStep where
  text : String
  type : StepType
deriving DecidableEq

/-- The stacking direction of the flowchart. -/
inductive FlowDirection
  | vertical
  | horizontal
deriving DecidableEq

/-- A connection descriptor: from index, to index, optional edge label. -/
structure FlowConn where
  fromIdx : ℕ
  toIdx : ℕ
  label : Option String
deriving DecidableEq

/-- The fixed visual-kind mapping: start and end are stadium boxes,
process a rectangle, decision a diamond. -/
inductive NodeShape
  | stadium
  | rect
  | diamond
deriving DecidableEq

def shapeOf : StepType → NodeShape
  | .start => .stadium
  | .finish => .stadium
  | .process => .rect
  | .decision => .diamond

/-- A laid-out flowchart node. -/
structure FlowNode where
  text : String
  shape : NodeShape
  centerPos : Point

/-- A laid-out connector: its two anchor points and optional label. -/
structure FlowConnector where
  fromPt : Point
  toPt : Point
  label : Option String

/-- The structured output of the flowchart builder. -/
structure Flowchart where
  nodes : List FlowNode
  connectors : List FlowConnector

/-- The fixed gap between consecutive boxes. -/
def flowGap : ℝ := 0.5

/-- Step i sits at position i * pitch along the chosen axis, pitch being
box size plus the fixed gap: downward for vertical flow, rightward for
horizontal flow. -/
noncomputable def nodeCenter (dir : FlowDirection) (boxW boxH : ℝ) (i : ℕ) :
    Point :=
  match dir with
  | .vertical => (0, -((i : ℝ) * (boxH + flowGap)))
  | .horizontal => ((i : ℝ) * (boxW + flowGap), 0)

/-- The anchor on the f box facing the flow direction (bottom edge for
vertical flow, right edge for horizontal). -/
noncomputable def anchorOut (dir : FlowDirection) (boxW boxH : ℝ) (i : ℕ) :
    Point :=
  match dir with
  | .vertical => translatePoint (0, -(boxH / 2)) (nodeCenter dir boxW boxH i)
  | .horizontal => translatePoint (boxW / 2, 0) (nodeCenter dir boxW boxH i)

/-- The anchor on the target box facing against the flow direction. -/
noncomputable def anchorIn (dir : FlowDirection) (boxW boxH : ℝ) (i : ℕ) :
    Point :=
  match dir with
  | .vertical => translatePoint (0, boxH / 2) (nodeCenter dir boxW boxH i)
  | .horizontal => translatePoint (-(boxW / 2), 0) (nodeCenter dir boxW boxH i)

/-- Every connection references steps inside the step list. -/
def ConnsValid (n : ℕ) (conns : List FlowConn) : Prop :=
  ∀ c ∈ conns, c.fromIdx < n ∧ c.toIdx < n

instance connsValidDec (n : ℕ) (conns : List FlowConn) :
    Decidable (ConnsValid n conns) := by
  unfold ConnsValid
  infer_instance

/-- Modelled from the spec: FlowchartBuilder (the implementation is not
in the repository).  Steps are stacked along the chosen axis at fixed
pitch, in list order; each connection becomes a straight connector
between facing anchors; any out-of-range connection index is an
IndexOutOfRangeError, raised before any geometry is emitted. -/
noncomputable def create_flowchart (steps : List FlowStep)
    (conns : List FlowConn) (dir : FlowDirection) (boxW boxH : ℝ) :
    Except BuildError Flowchart :=
  if ConnsValid steps.length conns then
    Except.ok
      ⟨(List.range steps.length).map (fun i =>
          ⟨(steps.getD i ⟨"", .process⟩).text,
           shapeOf (steps.getD i ⟨"", .process⟩).type,
           nodeCenter dir boxW boxH i⟩),
        conns.map (fun c =>
          ⟨anchorOut dir boxW boxH c.fromIdx, anchorIn dir boxW boxH c.toIdx,
           c.label⟩)⟩
  else .error .indexOutOfRange

/-- The vertices argument of the labeled-triangle builder: a preset name
or an explicit vertex list. -/
inductive TriangleVertices
  | preset (name : String)
  | explicit (vs : List Point)

/-- Vertex resolution: presets go through presetTriangle, explicit lists
are used as given. -/
noncomputable def resolveVertices : TriangleVertices → Except BuildError (List Point)
  | .preset name => presetTriangle name
  | .explicit vs => .ok vs

noncomputable def midpointP (p q : Point) : Point :=
  ((p.1 + q.1) / 2, (p.2 + q.2) / 2)

/-- The three angle arcs of a labeled triangle, one per vertex in vertex
order, using the other two vertices as rays; the label texts are passed
through verbatim. -/
noncomputable def triangleAngleArcs (vs : List Point) (angleLabels : List String) :
    Except BuildError (List (AngleArc × String)) := do
  let a0 ← resolve_angle_arc (vs.getD 0 (0, 0)) (vs.getD 1 (0, 0)) (vs.getD 2 (0, 0))
  let a1 ← resolve_angle_arc (vs.getD 1 (0, 0)) (vs.getD 2 (0, 0)) (vs.getD 0 (0, 0))
  let a2 ← resolve_angle_arc (vs.getD 2 (0, 0)) (vs.getD 0 (0, 0)) (vs.getD 1 (0, 0))
  Except.ok [(a0, angleLabels.getD 0 ""), (a1, angleLabels.getD 1 ""),
    (a2, angleLabels.getD 2 "")]

/-- The structured output of the labeled-triangle builder. -/
structure LabeledTriangle where
  triangle : Primitive
  vertexLabels : List Primitive
  sideLabels : List Primitive
  angleArcs : List (AngleArc × String)

/-- Modelled from the spec: TriangleLabelBuilder (the implementation is
not in the repository; the call sites are the triangle scripts).  Vertices
come from a preset name or an explicit list; optional vertex labels
attach one label per vertex; optional side labels sit at midpoint-offset
positions in side order; with show_angles one angle-arc resolution per
vertex uses the other two vertices as rays, labels passed through
verbatim in vertex order. -/
noncomputable def create_labeled_triangle (vertices : TriangleVertices)
    (vertexLabels : Option (List String)) (sideLabels : Option (List String))
    (showAngles : Bool) (angleLabels : List String) (color : String)
    (fillOpacity : ℝ) : Except BuildError LabeledTriangle := do
  let vs ← resolveVertices vertices
  let arcs ← (if showAngles then triangleAngleArcs vs angleLabels
    else Except.ok [])
  Except.ok
    ⟨Primitive.polygon vs ⟨color, fillOpacity, color, 2, 1⟩,
     (match vertexLabels with
       | none => []
       | some ls => (vs.zip ls).map (fun p =>
           Primitive.label (translatePoint (0, 0.3) p.1) p.2 ⟨color, 1, "", 0, 1⟩)),
     (match sideLabels with
       | none => []
       | some ls => (List.range 3).map (fun i =>
           Primitive.label
             (translatePoint (0, 0.2)
               (midpointP (vs.getD i (0, 0)) (vs.getD ((i + 1) % 3) (0, 0))))
             (ls.getD i "") ⟨color, 1, "", 0, 1⟩)),
     arcs⟩

/-- The default tick-counted side pairs of the congruence builder: SSS
marks all three side pairs with 1, 2, 3 ticks; SAS marks two side pairs. -/
def defaultSideMarks : String → List (ℕ × ℕ × ℕ)
  | "SSS" => [(0, 0, 1), (1, 1, 2), (2, 2, 3)]
  | "SAS" => [(0, 0, 1), (2, 2, 2)]
  | _ => []

/-- The default angle-mark pairs of the congruence builder: SAS marks the
included angle. -/
def defaultAngleMarks : String → List (ℕ × ℕ × ℕ)
  | "SAS" => [(0, 0, 1)]
  | _ => []

/-- The fixed default vertex coordinates of the two congruence triangles. -/
def defaultTri1 : List Point := [(-4, -1), (-1.5, -1), (-2.75, 1)]

def defaultTri2 : List Point := [(1, -1), (3.5, -1), (2.25, 1)]

/-- count short perpendicular tick marks at the midpoint of a side. -/
noncomputable def sideTicks (vs : List Point) (side : ℕ) (count : ℕ)
    (color : String) : List Primitive :=
  let p := vs.getD (side % 3) (0, 0)
  let q := vs.getD ((side + 1) % 3) (0, 0)
  let m := midpointP p q
  let d := vsub q p
  let len := normP d
  let u : Point := (d.1 / len, d.2 / len)
  let w : Point := (-(u.2), u.1)
  (List.range count).map (fun k =>
    let c : Point := (m.1 + ((k : ℝ) - ((count : ℝ) - 1) / 2) * 0.1 * u.1,
                      m.2 + ((k : ℝ) - ((count : ℝ) - 1) / 2) * 0.1 * u.2)
    Primitive.line (c.1 - 0.08 * w.1, c.2 - 0.08 * w.2)
      (c.1 + 0.08 * w.1, c.2 + 0.08 * w.2) ⟨"", 0, color, 2, 1⟩)

/-- count concentric matching arc marks at a triangle vertex. -/
noncomputable def vertexAngleMarkArcs (vs : List Point) (v : ℕ) (count : ℕ)
    (color : String) : List Primitive :=
  let p := vs.getD (v % 3) (0, 0)
  let r1 := vs.getD ((v + 1) % 3) (0, 0)
  let r2 := vs.getD ((v + 2) % 3) (0, 0)
  (List.range count).map (fun j =>
    Primitive.arc p (0.25 + 0.06 * j) (Complex.arg (toC (vsub r1 p)))
      (Complex.arg (toC (vsub r2 p) / toC (vsub r1 p))) ⟨"", 0, color, 2, 1⟩)

/-- The structured output of the triangle-congruence builder. -/
structure TriangleCongruence where
  tri1 : Primitive
  tri2 : Primitive
  vertexLabels1 : List Primitive
  vertexLabels2 : List Primitive
  ticks1 : List Primitive
  ticks2 : List Primitive
  angleMarks1 : List Primitive
  angleMarks2 : List Primitive
  proportionLabels : List Primitive

/-- Modelled from the spec: TriangleCongruenceBuilder (the implementation
is not in the repository; the call sites are the triangle_congruence
scripts).  Two independent triangles (explicit vertex lists or fixed
defaults) plus correspondence marks: side_marks draw tickCount
perpendicular ticks at the midpoint of each referenced side in both
triangles, angle_marks draw matching arc marks; omitted marks default by
mode (SSS three tick-counted side pairs 1/2/3, SAS two side pairs plus
the included angle pair, SIMILAR no ticks but one proportion-ratio label
per side pair beneath the figure). -/
noncomputable def create_triangle_congruence (mode : String)
    (tri1V tri2V : Option (List Point)) (labels1 labels2 : List String)
    (sideMarks angleMarks : Option (List (ℕ × ℕ × ℕ)))
    (showProportions : Bool) (proportionLabels : List String)
    (color1 color2 : String) (fillOpacity : ℝ) : TriangleCongruence :=
  let vs1 := tri1V.getD defaultTri1
  let vs2 := tri2V.getD defaultTri2
  let sm := sideMarks.getD (defaultSideMarks mode)
  let am := angleMarks.getD (defaultAngleMarks mode)
  ⟨Primitive.polygon vs1 ⟨color1, fillOpacity, color1, 2, 1⟩,
   Primitive.polygon vs2 ⟨color2, fillOpacity, color2, 2, 1⟩,
   (vs1.zip labels1).map (fun p =>
     Primitive.label (translatePoint (0, 0.3) p.1) p.2 ⟨color1, 1, "", 0, 1⟩),
   (vs2.zip labels2).map (fun p =>
     Primitive.label (translatePoint (0, 0.3) p.1) p.2 ⟨color2, 1, "", 0, 1⟩),
   sm.flatMap (fun t => sideTicks vs1 t.1 t.2.2 color1),
   sm.flatMap (fun t => sideTicks vs2 t.2.1 t.2.2 color2),
   am.flatMap (fun t => vertexAngleMarkArcs vs1 t.1 t.2.2 color1),
   am.flatMap (fun t => vertexAngleMarkArcs vs2 t.2.1 t.2.2 color2),
   (if showProportions ∨ mode = "SIMILAR" then
     (List.range proportionLabels.length).map (fun (i : ℕ) =>
       Primitive.label (0, -2 - 0.4 * (i : ℝ)) (proportionLabels.getD i "")
         ⟨"WHITE", 1, "", 0, 1⟩)
    else [])⟩

/-- The fixed sampling step of the cartesian-graph builder. -/
def graphSampleStep : ℝ := 0.1

/-- The sampled points of a function across an x interval at the fixed
step: the same sampling rule is reproducible for identical inputs. -/
noncomputable def samplePoints (f : ℝ → ℝ) (xmin xmax : ℝ) : List Point :=
  (List.range (⌊(xmax - xmin) / graphSampleStep⌋₊ + 1)).map (fun k =>
    (xmin + k * graphSampleStep, f (xmin + k * graphSampleStep)))

/-- Successive sampled points joined by line segments. -/
noncomputable def polylineSegments (ps : List Point) (st : Style) :
    List Primitive :=
  (ps.zip ps.tail).map (fun q => Primitive.line q.1 q.2 st)

/-- The structured output of the cartesian-graph builder. -/
structure CartesianGraph where
  xAxis : Primitive
  yAxis : Primitive
  xTicks : List Primitive
  yTicks : List Primitive
  curve : List Primitive
  axisLabels : List Primitive

/-- Tick label anchors along an axis from a (min, max, step) range;
numeral text rendering is outside the core, so tick labels carry their
anchor only. -/
noncomputable def tickMarks (r : ℝ × ℝ × ℝ) (vertical : Bool) :
    List Primitive :=
  (List.range (⌊(r.2.1 - r.1) / r.2.2⌋₊ + 1)).map (fun k =>
    let x := r.1 + k * r.2.2
    Primitive.label (if vertical then ((0 : ℝ), x) else (x, (0 : ℝ))) ""
      ⟨"WHITE", 1, "", 0, 1⟩)

/-- Modelled from the spec: CartesianGraphBuilder (the implementation is
not in the repository; the call sites are the cartesian_graph scripts).
Samples the supplied function across x_range at the fixed step,
connecting successive samples with line segments; axis lines plus
optional tick labels rendered from x_range and y_range. -/
noncomputable def create_cartesian_graph (f : ℝ → ℝ) (xr yr : ℝ × ℝ × ℝ)
    (color : String) (showLabels : Bool) (xLabel yLabel : String) :
    CartesianGraph :=
  ⟨Primitive.line (xr.1, 0) (xr.2.1, 0) ⟨"", 0, "WHITE", 2, 1⟩,
   Primitive.line (0, yr.1) (0, yr.2.1) ⟨"", 0, "WHITE", 2, 1⟩,
   (if showLabels then tickMarks xr false else []),
   (if showLabels then tickMarks yr true else []),
   polylineSegments (samplePoints f xr.1 xr.2.1) ⟨"", 0, color, 3, 1⟩,
   (if showLabels then
     [Primitive.label (xr.2.1, -0.4) xLabel ⟨"WHITE", 1, "", 0, 1⟩,
      Primitive.label (-0.4, yr.2.1) yLabel ⟨"WHITE", 1, "", 0, 1⟩]
    else [])⟩

/-- One force of the force-diagram descriptor: named direction,
magnitude, label and color. -/
structure ForceSpec where
  direction : String
  magnitude : ℝ
  label : String
  color : String

/-- The named force directions of the call sites. -/
def dirVec : String → Point
  | "UP" => (0, 1)
  | "DOWN" => (0, -1)
  | "LEFT" => (-1, 0)
  | "RIGHT" => (1, 0)
  | _ => (0, 0)

/-- The maximal rendered arrow length of the force diagram. -/
def forceArrowMax : ℝ := 1.5

/-- The structured output of the force-diagram builder. -/
structure ForceDiagram where
  objectPrim : Primitive
  arrows : List Primitive
  arrowLabels : List Primitive
  netForce : Option Primitive

open Classical in
/-- Modelled from the spec: ForceDiagramBuilder (the implementation is
not in the repository; the call sites are the force_diagram scripts).
The object sits at the origin; each force renders as an arrow from the
object's boundary in its named direction with length proportional to its
magnitude by the scaleProportional rule (domain maximum = the largest
magnitude, which degenerate at zero is a DegenerateRangeError), labelled
at the tip; with show_net_force the vector sum renders as an additional
distinguished arrow. -/
noncomputable def create_force_diagram (shape : String) (size : ℝ)
    (forces : List ForceSpec) (showNet : Bool) (objColor : String) :
    Except BuildError ForceDiagram :=
  let maxMag := listMax (forces.map (fun f => f.magnitude))
  if forces ≠ [] ∧ maxMag = 0 then .error .degenerateRange
  else
    let arrowOf := fun (f : ForceSpec) =>
      let d := dirVec f.direction
      let tail : Point := (d.1 * (size / 2), d.2 * (size / 2))
      let len := f.magnitude / maxMag * forceArrowMax
      ((tail.1, tail.2), (tail.1 + d.1 * len, tail.2 + d.2 * len))
    .ok
      ⟨(if shape = "circle" then
          Primitive.circle (0, 0) (size / 2) ⟨objColor, 1, objColor, 2, 1⟩
        else Primitive.rectangle (0, 0) size size ⟨objColor, 1, objColor, 2, 1⟩),
       forces.map (fun f =>
         Primitive.line (arrowOf f).1 (arrowOf f).2 ⟨"", 0, f.color, 4, 1⟩),
       forces.map (fun f =>
         Primitive.label (arrowOf f).2 f.label ⟨f.color, 1, "", 0, 1⟩),
       (if showNet then
         let net := forces.foldr (fun f acc =>
           (acc.1 + (dirVec f.direction).1 * f.magnitude,
            acc.2 + (dirVec f.direction).2 * f.magnitude)) ((0 : ℝ), (0 : ℝ))
         some (Primitive.line (0, 0)
           (net.1 / maxMag * forceArrowMax, net.2 / maxMag * forceArrowMax)
           ⟨"", 0, "WHITE", 6, 1⟩)
        else none)⟩

/-- One vector of the 3D axes-vector descriptor. -/
structure Vec3Spec where
  components : ℝ × ℝ × ℝ
  color : String
  label : String

/-- A rendered 3D arrow from the origin. -/
structure Arrow3 where
  tip : ℝ × ℝ × ℝ
  color : String
  label : String

/-- The structured output of the 3D axes-vector builder. -/
structure AxesVector3D where
  axisSegments : List ((ℝ × ℝ × ℝ) × (ℝ × ℝ × ℝ))
  unitVectors : List Arrow3
  vectorArrows : List Arrow3

/-- Modelled from the spec: AxesVectorBuilder (the implementation is not
in the repository; the call sites are the 3d_vector scripts).  Three axis
lines spanning x_range, y_range and z_range scaled to the given axis
length; three fixed unit basis arrows when show_unit_vectors; one
labelled arrow from the origin to its components per supplied vector. -/
noncomputable def create_3d_axes_vector (vectors : List Vec3Spec)
    (xr yr zr : ℝ × ℝ × ℝ) (showUnitVectors : Bool) (axisLength : ℝ) :
    AxesVector3D :=
  let sx := axisLength / (xr.2.1 - xr.1)
  let sy := axisLength / (yr.2.1 - yr.1)
  let sz := axisLength / (zr.2.1 - zr.1)
  ⟨[((xr.1 * sx, 0, 0), (xr.2.1 * sx, 0, 0)),
    ((0, yr.1 * sy, 0), (0, yr.2.1 * sy, 0)),
    ((0, 0, zr.1 * sz), (0, 0, zr.2.1 * sz))],
   (if showUnitVectors then
     [⟨(1, 0, 0), "RED", "i"⟩, ⟨(0, 1, 0), "GREEN", "j"⟩,
      ⟨(0, 0, 1), "BLUE", "k"⟩]
    else []),
   vectors.map (fun v => ⟨v.components, v.color, v.label⟩)⟩

/-- A default primitive, used only as the out-of-range fallback of list
indexing in theorem statements. -/
def dummyPrim : Primitive := .circle (0, 0) 0 ⟨"", 0, "", 0, 1⟩

/-- A default flowchart node, used only as the out-of-range fallback of
list indexing in theorem statements. -/
def dummyNode : FlowNode := ⟨"", .stadium, (0, 0)⟩

/-! ## Invocation wrappers

An invocation of a builder happens in a process whose ambient random
stream is `rng`; a builder that never samples simply does not read it.
The non-randomized builders below ignore the stream, which is the
formal content of the determinism claim; the randomized builders
(create_cell, create_firework, create_star_field) consume it. -/

noncomputable def invoke_sun (radius : ℝ) (_rng : Rng) : List Primitive :=
  create_sun radius

def invoke_heart (size : ℝ) (color : String) (_rng : Rng) : List Primitive :=
  create_heart size color

def invoke_cloud (width : ℝ) (color : String) (_rng : Rng) : List Primitive :=
  create_cloud width color

noncomputable def invoke_star (radius : ℝ) (numPoints : ℕ) (color : String)
    (innerFrac : ℝ) (_rng : Rng) : Primitive :=
  create_star radius numPoints color innerFrac

noncomputable def invoke_earth (radius : ℝ) (_rng : Rng) : List Primitive :=
  create_earth radius

def invoke_lightning (height : ℝ) (color : String) (_rng : Rng) : List Primitive :=
  create_lightning height color

def invoke_moon (phase : String) (radius : ℝ) (_rng : Rng) : List Primitive :=
  create_moon phase radius

def invoke_tree (height : ℝ) (_rng : Rng) : List Primitive :=
  create_tree height

def invoke_water_drop (height : ℝ) (color : String) (_rng : Rng) : List Primitive :=
  create_water_drop height color

noncomputable def invoke_atom (symbol : String) (config : List ℕ) (_rng : Rng) :
    AtomDiagram :=
  create_atom_diagram symbol config

noncomputable def invoke_bar_chart (values : List ℝ) (chartHeight barWidth gap : ℝ)
    (_rng : Rng) : Except BuildError (List Bar) :=
  create_bar_chart values chartHeight barWidth gap

noncomputable def invoke_flowchart (steps : List FlowStep) (conns : List FlowConn)
    (dir : FlowDirection) (boxW boxH : ℝ) (_rng : Rng) :
    Except BuildError Flowchart :=
  create_flowchart steps conns dir boxW boxH

noncomputable def invoke_circle_geometry (radius : ℝ) (pointAngles : List ℝ)
    (pointLabels : List String) (chords : List (ℕ × ℕ × String))
    (radii : List ℕ) (tangents : List ℕ) (central : Option (ℕ × ℕ × String))
    (inscribed : Option (ℕ × ℕ × ℕ × String)) (_rng : Rng) :
    Except BuildError CircleGeometry :=
  create_circle_geometry radius pointAngles pointLabels chords radii tangents
    central inscribed

noncomputable def invoke_labeled_triangle (vertices : TriangleVertices)
    (vertexLabels sideLabels : Option (List String)) (showAngles : Bool)
    (angleLabels : List String) (color : String) (fillOpacity : ℝ)
    (_rng : Rng) : Except BuildError LabeledTriangle :=
  create_labeled_triangle vertices vertexLabels sideLabels showAngles
    angleLabels color fillOpacity

noncomputable def invoke_triangle_congruence (mode : String)
    (tri1V tri2V : Option (List Point)) (labels1 labels2 : List String)
    (sideMarks angleMarks : Option (List (ℕ × ℕ × ℕ)))
    (showProportions : Bool) (proportionLabels : List String)
    (color1 color2 : String) (fillOpacity : ℝ) (_rng : Rng) :
    TriangleCongruence :=
  create_triangle_congruence mode tri1V tri2V labels1 labels2 sideMarks
    angleMarks showProportions proportionLabels color1 color2 fillOpacity

noncomputable def invoke_cartesian_graph (f : ℝ → ℝ) (xr yr : ℝ × ℝ × ℝ)
    (color : String) (showLabels : Bool) (xLabel yLabel : String)
    (_rng : Rng) : CartesianGraph :=
  create_cartesian_graph f xr yr color showLabels xLabel yLabel

noncomputable def invoke_force_diagram (shape : String) (size : ℝ)
    (forces : List ForceSpec) (showNet : Bool) (objColor : String)
    (_rng : Rng) : Except BuildError ForceDiagram :=
  create_force_diagram shape size forces showNet objColor

noncomputable def invoke_3d_axes_vector (vectors : List Vec3Spec)
    (xr yr zr : ℝ × ℝ × ℝ) (showUnitVectors : Bool) (axisLength : ℝ)
    (_rng : Rng) : AxesVector3D :=
  create_3d_axes_vector vectors xr yr zr showUnitVectors axisLength

/-! ## Theorems -/

/-- C9: create_cloud is homogeneous in its width parameter: for every
width w > 0, create_cloud(width = w) is exactly the six circles of
create_cloud(width = 1) scaled by w — radii and center coordinates
multiplied by w, same order, same color and opacity. -/
theorem cloud_homogeneous_in_width (w : ℝ) (c : String) (hw : 0 < w) :
    create_cloud w c = (create_cloud 1 c).map (scalePrim w) ∧
    (create_cloud w c).length = 6 := by
  constructor
  · simp only [create_cloud, cloudCircleSpec, List.map_cons, List.map_nil,
      scalePrim, scalePoint]
    norm_num
    refine ⟨⟨?_, ?_⟩, ?_, ?_⟩ <;> ring
  · rfl

/-- Witness for C9 at width 2. -/
theorem cloud_homogeneous_in_width_witness :
    (0 : ℝ) < 2 ∧
    (create_cloud 2 "WHITE" = (create_cloud 1 "WHITE").map (scalePrim 2) ∧
     (create_cloud 2 "WHITE").length = 6) :=
  ⟨by norm_num, cloud_homogeneous_in_width 2 "WHITE" (by norm_num)⟩

/-- C10: for every invocation of create_star_field and every outcome of
its random draws, the result has exactly num_stars stars, each star's
center lies in the area rectangle, and each star's size lies in
[0.05, 0.2]. -/
theorem star_field_invariants (n : ℕ) (aw ah : ℝ) (rng : Rng)
    (hrng : ValidRng rng) (haw : 0 ≤ aw) (hah : 0 ≤ ah) :
    (create_star_field n aw ah rng).length = n ∧
    ∀ s ∈ create_star_field n aw ah rng,
      -(aw / 2) ≤ s.center.1 ∧ s.center.1 ≤ aw / 2 ∧
      -(ah / 2) ≤ s.center.2 ∧ s.center.2 ≤ ah / 2 ∧
      0.05 ≤ s.size ∧ s.size ≤ 0.2 := by
  constructor
  · simp [create_star_field]
  · intro s hs
    simp only [create_star_field, List.mem_map, List.mem_range] at hs
    obtain ⟨k, -, rfl⟩ := hs
    obtain ⟨h0a, h0b⟩ := hrng (3 * k)
    obtain ⟨h1a, h1b⟩ := hrng (3 * k + 1)
    obtain ⟨h2a, h2b⟩ := hrng (3 * k + 2)
    simp only [uniformOn]
    refine ⟨?_, ?_, ?_, ?_, ?_, ?_⟩ <;> nlinarith

/-- Witness for C10 with two stars, a 12 x 6 area and the constant
one-half stream. -/
theorem star_field_invariants_witness :
    ValidRng (fun _ => (1 : ℝ) / 2) ∧
    (create_star_field 2 12 6 (fun _ => (1 : ℝ) / 2)).length = 2 := by
  have hv : ValidRng (fun _ => (1 : ℝ) / 2) := by
    intro n
    norm_num
  exact ⟨hv,
    (star_field_invariants 2 12 6 (fun _ => (1 : ℝ) / 2) hv (by norm_num)
      (by norm_num)).1⟩

/-- The length of a flat-mapped list whose blocks all have size k. -/
theorem flatMap_length_const {α β : Type} (f : α → List β) (l : List α) (k : ℕ)
    (h : ∀ x, (f x).length = k) : (l.flatMap f).length = k * l.length := by
  induction l with
  | nil => simp
  | cons a t ih =>
      simp only [List.flatMap_cons, List.length_append, List.length_cons, h, ih]
      ring

/-- C8 counterexample: create_heart composes exactly 3 primitives, so the
claimed lower bound of 4 fails on it. -/
theorem illustration_count_cex :
    ¬ (4 ≤ (create_heart 1 "RED").length ∧ (create_heart 1 "RED").length ≤ 20) := by
  simp [create_heart]

/-- C8 (amended): every illustration builder returns a fixed back-to-front
composition whose primitive count is determined by its parameters — sun 19,
heart 3, cloud 6, cell 21, earth 6, firework 1 + 4 * num_sparks for a
nonempty colors list (with the empty colors list and at least one spark
the source raises ZeroDivisionError and produces no output), lightning 2,
moon 5 (full phase) and 3 (any other phase), tree 4, water drop 3, star
field num_stars (create_star itself is a single polygon) — and
glow/shadow layers come first where present: the sun's five glow circles
(opacity at most 0.4) precede the opaque core, the lightning glow
(opacity 0.3) precedes the bolt (opacity 1), and the crescent moon's back
glow (opacity 0.1) precedes the body (opacity 1). -/
theorem illustration_composition_amended :
    (∀ r : ℝ, (create_sun r).length = 19) ∧
    (∀ (s : ℝ) (c : String), (create_heart s c).length = 3) ∧
    (∀ (w : ℝ) (c : String), (create_cloud w c).length = 6) ∧
    (∀ rng : Rng, (create_cell rng).length = 21) ∧
    (∀ r : ℝ, (create_earth r).length = 6) ∧
    (∀ (ctr : Point) (r : ℝ) (n : ℕ) (cols : List String) (rng : Rng),
      cols ≠ [] →
      ∃ prims, create_firework ctr r n cols rng = some prims ∧
        prims.length = 1 + 4 * n) ∧
    (∀ (ctr : Point) (r : ℝ) (n : ℕ) (rng : Rng), n ≠ 0 →
      create_firework ctr r n [] rng = none) ∧
    (∀ (h : ℝ) (c : String), (create_lightning h c).length = 2) ∧
    (∀ r : ℝ, (create_moon "full" r).length = 5) ∧
    (∀ (p : String) (r : ℝ), p ≠ "full" → (create_moon p r).length = 3) ∧
    (∀ h : ℝ, (create_tree h).length = 4) ∧
    (∀ (h : ℝ) (c : String), (create_water_drop h c).length = 3) ∧
    (∀ (n : ℕ) (aw ah : ℝ) (rng : Rng),
      (create_star_field n aw ah rng).length = n) ∧
    (∀ (r : ℝ) (i : ℕ), i < 5 →
      primFillOpacity ((create_sun r).getD i dummyPrim) ≤ 0.4) ∧
    (∀ r : ℝ, primFillOpacity ((create_sun r).getD 5 dummyPrim) = 1) ∧
    (∀ (h : ℝ) (c : String),
      primFillOpacity ((create_lightning h c).getD 0 dummyPrim) = 0.3 ∧
      primFillOpacity ((create_lightning h c).getD 1 dummyPrim) = 1) ∧
    (∀ r : ℝ,
      primFillOpacity ((create_moon "crescent" r).getD 0 dummyPrim) = 0.1 ∧
      primFillOpacity ((create_moon "crescent" r).getD 1 dummyPrim) = 1) := by
  refine ⟨?_, ?_, ?_, ?_, ?_, ?_, ?_, ?_, ?_, ?_, ?_, ?_, ?_, ?_, ?_, ?_, ?_⟩
  · intro r
    simp [create_sun, sunGlow]
  · intro s c
    rfl
  · intro w c
    rfl
  · intro rng
    simp [create_cell]
  · intro r
    rfl
  · intro ctr r n cols rng hc
    have hcond : ¬ (cols = [] ∧ n ≠ 0) := fun hx => hc hx.1
    refine ⟨((Primitive.circle (0, 0) (r * 0.15) ⟨"WHITE", 1, "", 0, 1⟩) ::
        (List.range n).flatMap (fireworkSpark r cols n rng)).map
        (translatePrim ctr),
      by simp only [create_firework, if_neg hcond], ?_⟩
    simp only [List.length_map, List.length_cons]
    rw [flatMap_length_const (fireworkSpark r cols n rng) (List.range n) 4
      (fun i => rfl)]
    simp only [List.length_range]
    omega
  · intro ctr r n rng hn
    simp [create_firework, hn]
  · intro h c
    rfl
  · intro r
    simp [create_moon, moonCraterSpec]
  · intro p r hp
    simp [create_moon, hp]
  · intro h
    rfl
  · intro h c
    rfl
  · intro n aw ah rng
    simp [create_star_field]
  · intro r i hi
    interval_cases i <;>
      norm_num [create_sun, sunGlow, primFillOpacity, styleOf]
  · intro r
    norm_num [create_sun, sunGlow, primFillOpacity, styleOf]
  · intro h c
    exact ⟨rfl, rfl⟩
  · intro r
    have hp : ("crescent" : String) ≠ "full" := by decide
    constructor <;>
      norm_num [create_moon, hp, primFillOpacity, styleOf]

/-- Witness for C8 (amended), discharging the nonempty-colors, crash,
crescent-phase and glow-index hypotheses at concrete inputs. -/
theorem illustration_composition_amended_witness :
    fireworkDefaultColors ≠ [] ∧
    (∃ prims, create_firework (0, 0) 2 3 fireworkDefaultColors
        (fun _ => (1 : ℝ) / 2) = some prims ∧ prims.length = 1 + 4 * 3) ∧
    (3 : ℕ) ≠ 0 ∧
    create_firework (0, 0) 2 3 [] (fun _ => (1 : ℝ) / 2) = none ∧
    ("crescent" : String) ≠ "full" ∧ (create_moon "crescent" 1).length = 3 ∧
    (0 : ℕ) < 5 ∧ primFillOpacity ((create_sun 1).getD 0 dummyPrim) ≤ 0.4 := by
  have hcols : fireworkDefaultColors ≠ [] := by simp [fireworkDefaultColors]
  have hp : ("crescent" : String) ≠ "full" := by decide
  have hn : (3 : ℕ) ≠ 0 := by norm_num
  exact ⟨hcols,
    illustration_composition_amended.2.2.2.2.2.1 (0, 0) 2 3
      fireworkDefaultColors (fun _ => (1 : ℝ) / 2) hcols,
    hn,
    illustration_composition_amended.2.2.2.2.2.2.1 (0, 0) 2 3
      (fun _ => (1 : ℝ) / 2) hn,
    hp,
    illustration_composition_amended.2.2.2.2.2.2.2.2.2.1 "crescent" 1 hp,
    by norm_num,
    illustration_composition_amended.2.2.2.2.2.2.2.2.2.2.2.2.2.1 1 0
      (by norm_num)⟩

/-- C7: every non-randomized builder is a deterministic function of its
descriptor — two invocations with identical descriptors, whatever the
ambient random stream of each invocation, yield identical outputs.  The
conjunction covers every builder family of the spec other than the
randomized illustrations: the deterministic illustrations (sun, heart,
cloud, star, earth, lightning, moon, tree, water drop) and the atom,
bar-chart, flowchart, circle-geometry, labeled-triangle,
triangle-congruence, cartesian-graph, force-diagram and 3D axes-vector
builders.  (The randomized builders create_cell, create_firework and
create_star_field are exactly the ones whose definitions read the
stream.) -/
theorem nonrandom_builders_deterministic :
    (∀ (r : ℝ) (rng rng2 : Rng), invoke_sun r rng = invoke_sun r rng2) ∧
    (∀ (s : ℝ) (c : String) (rng rng2 : Rng),
      invoke_heart s c rng = invoke_heart s c rng2) ∧
    (∀ (w : ℝ) (c : String) (rng rng2 : Rng),
      invoke_cloud w c rng = invoke_cloud w c rng2) ∧
    (∀ (r : ℝ) (n : ℕ) (c : String) (f : ℝ) (rng rng2 : Rng),
      invoke_star r n c f rng = invoke_star r n c f rng2) ∧
    (∀ (r : ℝ) (rng rng2 : Rng), invoke_earth r rng = invoke_earth r rng2) ∧
    (∀ (h : ℝ) (c : String) (rng rng2 : Rng),
      invoke_lightning h c rng = invoke_lightning h c rng2) ∧
    (∀ (p : String) (r : ℝ) (rng rng2 : Rng),
      invoke_moon p r rng = invoke_moon p r rng2) ∧
    (∀ (h : ℝ) (rng rng2 : Rng), invoke_tree h rng = invoke_tree h rng2) ∧
    (∀ (h : ℝ) (c : String) (rng rng2 : Rng),
      invoke_water_drop h c rng = invoke_water_drop h c rng2) ∧
    (∀ (sym : String) (config : List ℕ) (rng rng2 : Rng),
      invoke_atom sym config rng = invoke_atom sym config rng2) ∧
    (∀ (values : List ℝ) (ch bw gap : ℝ) (rng rng2 : Rng),
      invoke_bar_chart values ch bw gap rng = invoke_bar_chart values ch bw gap rng2) ∧
    (∀ (steps : List FlowStep) (conns : List FlowConn) (dir : FlowDirection)
      (bw bh : ℝ) (rng rng2 : Rng),
      invoke_flowchart steps conns dir bw bh rng =
        invoke_flowchart steps conns dir bw bh rng2) ∧
    (∀ (radius : ℝ) (pointAngles : List ℝ) (pointLabels : List String)
      (chords : List (ℕ × ℕ × String)) (radii : List ℕ) (tangents : List ℕ)
      (central : Option (ℕ × ℕ × String))
      (inscribed : Option (ℕ × ℕ × ℕ × String)) (rng rng2 : Rng),
      invoke_circle_geometry radius pointAngles pointLabels chords radii
        tangents central inscribed rng =
      invoke_circle_geometry radius pointAngles pointLabels chords radii
        tangents central inscribed rng2) ∧
    (∀ (vertices : TriangleVertices) (vertexLabels sideLabels : Option (List String))
      (showAngles : Bool) (angleLabels : List String) (color : String)
      (fillOpacity : ℝ) (rng rng2 : Rng),
      invoke_labeled_triangle vertices vertexLabels sideLabels showAngles
        angleLabels color fillOpacity rng =
      invoke_labeled_triangle vertices vertexLabels sideLabels showAngles
        angleLabels color fillOpacity rng2) ∧
    (∀ (mode : String) (tri1V tri2V : Option (List Point))
      (labels1 labels2 : List String)
      (sideMarks angleMarks : Option (List (ℕ × ℕ × ℕ)))
      (showProportions : Bool) (proportionLabels : List String)
      (color1 color2 : String) (fillOpacity : ℝ) (rng rng2 : Rng),
      invoke_triangle_congruence mode tri1V tri2V labels1 labels2 sideMarks
        angleMarks showProportions proportionLabels color1 color2 fillOpacity
        rng =
      invoke_triangle_congruence mode tri1V tri2V labels1 labels2 sideMarks
        angleMarks showProportions proportionLabels color1 color2 fillOpacity
        rng2) ∧
    (∀ (f : ℝ → ℝ) (xr yr : ℝ × ℝ × ℝ) (color : String) (showLabels : Bool)
      (xLabel yLabel : String) (rng rng2 : Rng),
      invoke_cartesian_graph f xr yr color showLabels xLabel yLabel rng =
      invoke_cartesian_graph f xr yr color showLabels xLabel yLabel rng2) ∧
    (∀ (shape : String) (size : ℝ) (forces : List ForceSpec) (showNet : Bool)
      (objColor : String) (rng rng2 : Rng),
      invoke_force_diagram shape size forces showNet objColor rng =
      invoke_force_diagram shape size forces showNet objColor rng2) ∧
    (∀ (vectors : List Vec3Spec) (xr yr zr : ℝ × ℝ × ℝ)
      (showUnitVectors : Bool) (axisLength : ℝ) (rng rng2 : Rng),
      invoke_3d_axes_vector vectors xr yr zr showUnitVectors axisLength rng =
      invoke_3d_axes_vector vectors xr yr zr showUnitVectors axisLength rng2) := by
  refine ⟨?_, ?_, ?_, ?_, ?_, ?_, ?_, ?_, ?_, ?_, ?_, ?_, ?_, ?_, ?_, ?_, ?_,
    ?_⟩ <;> intros <;> rfl

theorem buildShells_length (i : ℕ) (config : List ℕ) :
    (buildShells i config).length = config.length := by
  induction config generalizing i with
  | nil => rfl
  | cons c rest ih => simp [buildShells, ih]

theorem shellDotAngles_length (c : ℕ) : (shellDotAngles c).length = c := by
  simp [shellDotAngles]

theorem buildShells_dots (i : ℕ) (config : List ℕ) :
    ((buildShells i config).map (fun s => s.dotAngles.length)).sum = config.sum := by
  induction config generalizing i with
  | nil => rfl
  | cons c rest ih => simp [buildShells, shellDotAngles_length, ih]

theorem buildShells_mem (i : ℕ) (config : List ℕ) (s : ElectronShell)
    (hs : s ∈ buildShells i config) :
    ∃ c ∈ config, s.dotAngles = shellDotAngles c := by
  induction config generalizing i with
  | nil => simp [buildShells] at hs
  | cons c rest ih =>
      simp only [buildShells, List.mem_cons] at hs
      rcases hs with rfl | hs
      · exact ⟨c, List.mem_cons_self c rest, rfl⟩
      · obtain ⟨c2, hc, hd⟩ := ih (i + 1) hs
        exact ⟨c2, List.mem_cons_of_mem _ hc, hd⟩

theorem shellDotAngles_spacing (c : ℕ) (j : ℕ) (hj : j + 1 < c) :
    (shellDotAngles c).getD (j + 1) 0 - (shellDotAngles c).getD j 0 =
      360 / (c : ℝ) := by
  have hj0 : j < c := by omega
  unfold shellDotAngles
  rw [List.getD_eq_getElem?_getD, List.getD_eq_getElem?_getD,
    List.getElem?_map, List.getElem?_map, List.getElem?_range hj,
    List.getElem?_range hj0]
  simp only [Option.map_some', Option.getD_some]
  push_cast
  ring

/-- C3: for every electron_config list, the atom builder produces exactly
one shell per config entry and sum(electron_config) electron dots in
total, the dots on each shell spaced by 360 / count degrees; in
particular [2, 4] yields 2 shells and 6 dots and [2, 8, 1] yields 3
shells and 11 dots. -/
theorem atom_builder_counts :
    (∀ (symbol : String) (config : List ℕ),
      (create_atom_diagram symbol config).shells.length = config.length ∧
      totalElectronDots (create_atom_diagram symbol config) = config.sum ∧
      (∀ s ∈ (create_atom_diagram symbol config).shells, ∀ j : ℕ,
        j + 1 < s.dotAngles.length →
        s.dotAngles.getD (j + 1) 0 - s.dotAngles.getD j 0 =
          360 / (s.dotAngles.length : ℝ))) ∧
    (create_atom_diagram "C" [2, 4]).shells.length = 2 ∧
    totalElectronDots (create_atom_diagram "C" [2, 4]) = 6 ∧
    (create_atom_diagram "Na" [2, 8, 1]).shells.length = 3 ∧
    totalElectronDots (create_atom_diagram "Na" [2, 8, 1]) = 11 := by
  refine ⟨?_, ?_, ?_, ?_, ?_⟩
  · intro symbol config
    refine ⟨buildShells_length 0 config, buildShells_dots 0 config, ?_⟩
    intro s hs j hj
    obtain ⟨c, -, hd⟩ := buildShells_mem 0 config s hs
    rw [hd] at hj ⊢
    rw [shellDotAngles_length] at hj ⊢
    exact shellDotAngles_spacing c j hj
  · simp [create_atom_diagram, buildShells]
  · simp [create_atom_diagram, buildShells, totalElectronDots,
      shellDotAngles_length]
  · simp [create_atom_diagram, buildShells]
  · simp [create_atom_diagram, buildShells, totalElectronDots,
      shellDotAngles_length]

/-- Witness for C3: the spacing property evaluated on the first shell of
the carbon diagram at dot index 0. -/
theorem atom_builder_counts_witness :
    totalElectronDots (create_atom_diagram "C" [2, 4]) = 6 ∧
    ((create_atom_diagram "C" [2, 4]).shells.getD 0 ⟨0, []⟩).dotAngles.getD 1 0 -
      ((create_atom_diagram "C" [2, 4]).shells.getD 0 ⟨0, []⟩).dotAngles.getD 0 0 =
      360 / (((create_atom_diagram "C" [2, 4]).shells.getD 0
        ⟨0, []⟩).dotAngles.length : ℝ) := by
  have h := atom_builder_counts.1 "C" [2, 4]
  refine ⟨h.2.1, ?_⟩
  have hmem : (create_atom_diagram "C" [2, 4]).shells.getD 0 ⟨0, []⟩ ∈
      (create_atom_diagram "C" [2, 4]).shells := by
    simp [create_atom_diagram, buildShells]
  refine h.2.2 _ hmem 0 ?_
  simp [create_atom_diagram, buildShells, shellDotAngles_length]

/-- getD on a mapped range evaluates the function at the index. -/
theorem getD_range_map {β : Type} (f : ℕ → β) (n i : ℕ) (d : β) (hi : i < n) :
    ((List.range n).map f).getD i d = f i := by
  rw [List.getD_eq_getElem?_getD, List.getElem?_map, List.getElem?_range hi]
  rfl

/-- getD at an in-range index is a member of the list. -/
theorem getD_mem_of_lt (l : List ℝ) (j : ℕ) (hj : j < l.length) :
    l.getD j 0 ∈ l := by
  rw [List.getD_eq_getElem?_getD, List.getElem?_eq_getElem hj]
  exact List.getElem_mem hj

/-- A nonempty list of positive values has a positive maximum. -/
theorem listMax_pos (l : List ℝ) (hne : l ≠ []) (hpos : ∀ v ∈ l, 0 < v) :
    0 < listMax l := by
  cases l with
  | nil => exact absurd rfl hne
  | cons a t =>
      have ha := hpos a (List.mem_cons_self a t)
      have hfold : listMax (a :: t) = max a (listMax t) := rfl
      rw [hfold]
      exact lt_max_iff.mpr (Or.inl ha)

/-- C4: for every nonempty list of positive values (and positive chart
height), the bar-chart builder assigns each bar the height
scaleProportional(value, max(values), chartHeight), heights preserve
pairwise ratios, and scaleProportional with a zero domain maximum fails
with DegenerateRangeError. -/
theorem bar_chart_proportional :
    (∀ (values : List ℝ) (chartHeight barWidth gap : ℝ),
      values ≠ [] → (∀ v ∈ values, 0 < v) → 0 < chartHeight →
      ∃ bars, create_bar_chart values chartHeight barWidth gap = .ok bars ∧
        bars.length = values.length ∧
        (∀ i, i < values.length →
          Except.ok (bars.getD i ⟨0, 0, 0⟩).height =
            scaleProportional (values.getD i 0) (listMax values) chartHeight) ∧
        (∀ i j, i < values.length → j < values.length →
          (bars.getD i ⟨0, 0, 0⟩).height / (bars.getD j ⟨0, 0, 0⟩).height =
            values.getD i 0 / values.getD j 0)) ∧
    (∀ v r : ℝ, scaleProportional v 0 r = .error .degenerateRange) := by
  constructor
  · intro values H bw gap hne hpos hH
    have hm : 0 < listMax values := listMax_pos values hne hpos
    have hm0 : listMax values ≠ 0 := ne_of_gt hm
    refine ⟨(List.range values.length).map (fun (i : ℕ) =>
      (⟨(i : ℝ) * (bw + gap), values.getD i 0 / listMax values * H,
        values.getD i 0⟩ : Bar)), ?_, ?_, ?_, ?_⟩
    · unfold create_bar_chart
      rw [if_neg hm0]
    · simp
    · intro i hi
      rw [getD_range_map _ _ _ _ hi]
      unfold scaleProportional
      rw [if_neg hm0]
    · intro i j hi hj
      rw [getD_range_map _ _ _ _ hi, getD_range_map _ _ _ _ hj]
      have hvj : 0 < values.getD j 0 := hpos _ (getD_mem_of_lt values j hj)
      field_simp
      rw [mul_div_mul_right _ _ hH.ne']
  · intro v r
    simp [scaleProportional]

/-- Witness for C4 at the simple_comparison.py values with chart height 3. -/
theorem bar_chart_proportional_witness :
    ([45, 72, 58, 31, 89] : List ℝ) ≠ [] ∧
    (∀ v ∈ ([45, 72, 58, 31, 89] : List ℝ), 0 < v) ∧ (0 : ℝ) < 3 ∧
    (∃ bars, create_bar_chart [45, 72, 58, 31, 89] 3 0.7 0.3 = .ok bars ∧
      bars.length = ([45, 72, 58, 31, 89] : List ℝ).length ∧
      (∀ i, i < ([45, 72, 58, 31, 89] : List ℝ).length →
        Except.ok (bars.getD i ⟨0, 0, 0⟩).height =
          scaleProportional (([45, 72, 58, 31, 89] : List ℝ).getD i 0)
            (listMax [45, 72, 58, 31, 89]) 3) ∧
      (∀ i j, i < ([45, 72, 58, 31, 89] : List ℝ).length →
        j < ([45, 72, 58, 31, 89] : List ℝ).length →
        (bars.getD i ⟨0, 0, 0⟩).height / (bars.getD j ⟨0, 0, 0⟩).height =
          ([45, 72, 58, 31, 89] : List ℝ).getD i 0 /
            ([45, 72, 58, 31, 89] : List ℝ).getD j 0)) := by
  have h1 : ([45, 72, 58, 31, 89] : List ℝ) ≠ [] := by simp
  have h2 : ∀ v ∈ ([45, 72, 58, 31, 89] : List ℝ), 0 < v := by
    intro v hv
    simp only [List.mem_cons, List.not_mem_nil, or_false] at hv
    rcases hv with rfl | rfl | rfl | rfl | rfl <;> norm_num
  have h3 : (0 : ℝ) < 3 := by norm_num
  exact ⟨h1, h2, h3, bar_chart_proportional.1 [45, 72, 58, 31, 89] 3 0.7 0.3 h1 h2 h3⟩

/-- C5: for every flowchart descriptor with in-range connections, the
builder succeeds and produces exactly one node per step, in list order at
the fixed-pitch position along the chosen axis, and exactly one connector
per connection. -/
theorem flowchart_builder_counts (steps : List FlowStep) (conns : List FlowConn)
    (dir : FlowDirection) (boxW boxH : ℝ)
    (hc : ConnsValid steps.length conns) :
    ∃ fc, create_flowchart steps conns dir boxW boxH = .ok fc ∧
      fc.nodes.length = steps.length ∧ fc.connectors.length = conns.length ∧
      (∀ i, i < steps.length →
        (fc.nodes.getD i dummyNode).centerPos = nodeCenter dir boxW boxH i ∧
        (fc.nodes.getD i dummyNode).text = (steps.getD i ⟨"", .process⟩).text ∧
        (fc.nodes.getD i dummyNode).shape =
          shapeOf (steps.getD i ⟨"", .process⟩).type) := by
  refine ⟨⟨(List.range steps.length).map (fun i =>
      ⟨(steps.getD i ⟨"", .process⟩).text,
       shapeOf (steps.getD i ⟨"", .process⟩).type,
       nodeCenter dir boxW boxH i⟩),
    conns.map (fun c =>
      ⟨anchorOut dir boxW boxH c.fromIdx, anchorIn dir boxW boxH c.toIdx,
       c.label⟩)⟩, ?_, ?_, ?_, ?_⟩
  · unfold create_flowchart
    rw [if_pos hc]
  · simp
  · simp
  · intro i hi
    rw [getD_range_map _ _ _ _ hi]
    exact ⟨rfl, rfl, rfl⟩

/-- Witness for C5 at the simple_process.py flowchart. -/
theorem flowchart_builder_counts_witness :
    ConnsValid 4 [⟨0, 1, none⟩, ⟨1, 2, none⟩, ⟨2, 3, none⟩] ∧
    (∃ fc, create_flowchart
        [⟨"Start", .start⟩, ⟨"Process Data", .process⟩, ⟨"Output", .process⟩,
         ⟨"End", .finish⟩]
        [⟨0, 1, none⟩, ⟨1, 2, none⟩, ⟨2, 3, none⟩] .vertical 2.5 0.8 = .ok fc ∧
      fc.nodes.length =
        ([⟨"Start", .start⟩, ⟨"Process Data", .process⟩, ⟨"Output", .process⟩,
          ⟨"End", .finish⟩] : List FlowStep).length ∧
      fc.connectors.length =
        ([⟨0, 1, none⟩, ⟨1, 2, none⟩, ⟨2, 3, none⟩] : List FlowConn).length ∧
      (∀ i, i < ([⟨"Start", .start⟩, ⟨"Process Data", .process⟩,
          ⟨"Output", .process⟩, ⟨"End", .finish⟩] : List FlowStep).length →
        (fc.nodes.getD i dummyNode).centerPos = nodeCenter .vertical 2.5 0.8 i ∧
        (fc.nodes.getD i dummyNode).text =
          (([⟨"Start", .start⟩, ⟨"Process Data", .process⟩, ⟨"Output", .process⟩,
            ⟨"End", .finish⟩] : List FlowStep).getD i ⟨"", .process⟩).text ∧
        (fc.nodes.getD i dummyNode).shape =
          shapeOf (([⟨"Start", .start⟩, ⟨"Process Data", .process⟩,
            ⟨"Output", .process⟩, ⟨"End", .finish⟩] : List FlowStep).getD i
              ⟨"", .process⟩).type)) := by
  have hc : ConnsValid 4 [⟨0, 1, none⟩, ⟨1, 2, none⟩, ⟨2, 3, none⟩] := by
    intro c hc
    fin_cases hc <;> exact ⟨by decide, by decide⟩
  exact ⟨hc, flowchart_builder_counts
    [⟨"Start", .start⟩, ⟨"Process Data", .process⟩, ⟨"Output", .process⟩,
     ⟨"End", .finish⟩]
    [⟨0, 1, none⟩, ⟨1, 2, none⟩, ⟨2, 3, none⟩] .vertical 2.5 0.8 hc⟩

/-- The angle-arc resolver either succeeds or fails with
DegenerateAngleError; it never reports any other error. -/
theorem resolve_angle_arc_cases (v a b : Point) :
    (∃ arc, resolve_angle_arc v a b = .ok arc) ∨
    resolve_angle_arc v a b = .error .degenerateAngle := by
  by_cases h : vsub a v = ((0 : ℝ), (0 : ℝ)) ∨ vsub b v = ((0 : ℝ), (0 : ℝ))
  · right
    simp only [resolve_angle_arc, if_pos h]
  · left
    exact ⟨⟨v, 0.4, Complex.arg (toC (vsub a v)),
      Complex.arg (toC (vsub b v) / toC (vsub a v)),
      radToDeg (angleBetweenRad (vsub a v) (vsub b v))⟩,
      by simp only [resolve_angle_arc, if_neg h]⟩

/-- Central-angle resolution either succeeds or fails with
DegenerateAngleError. -/
theorem resolveCentral_cases (pts : List Point)
    (central : Option (ℕ × ℕ × String)) :
    (∃ o, resolveCentral pts central = .ok o) ∨
    resolveCentral pts central = .error .degenerateAngle := by
  cases central with
  | none => exact Or.inl ⟨none, rfl⟩
  | some c =>
      rcases resolve_angle_arc_cases (0, 0) (pts.getD c.1 (0, 0))
          (pts.getD c.2.1 (0, 0)) with ⟨arc, ha⟩ | ha
      · exact Or.inl ⟨some arc, by
          simp only [resolveCentral]
          rw [ha]
          rfl⟩
      · exact Or.inr (by
          simp only [resolveCentral]
          rw [ha]
          rfl)

/-- Inscribed-angle resolution either succeeds or fails with
DegenerateAngleError. -/
theorem resolveInscribed_cases (pts : List Point)
    (inscribed : Option (ℕ × ℕ × ℕ × String)) :
    (∃ o, resolveInscribed pts inscribed = .ok o) ∨
    resolveInscribed pts inscribed = .error .degenerateAngle := by
  cases inscribed with
  | none => exact Or.inl ⟨none, rfl⟩
  | some c =>
      rcases resolve_angle_arc_cases (pts.getD c.2.1 (0, 0)) (pts.getD c.1 (0, 0))
          (pts.getD c.2.2.1 (0, 0)) with ⟨arc, ha⟩ | ha
      · exact Or.inl ⟨some arc, by
          simp only [resolveInscribed]
          rw [ha]
          rfl⟩
      · exact Or.inr (by
          simp only [resolveInscribed]
          rw [ha]
          rfl)

/-- C6: a build fails with IndexOutOfRangeError exactly when some index
reference is out of bounds — for circle geometry, an index not within
points_on_circle; for flowcharts, a connection endpoint outside the step
list — and a failed build returns only the error, never a partial
geometry (a successful return certifies that all indices were valid). -/
theorem build_failure_iff_index_out_of_range :
    (∀ (radius : ℝ) (pointAngles : List ℝ) (pointLabels : List String)
      (chords : List (ℕ × ℕ × String)) (radii tangents : List ℕ)
      (central : Option (ℕ × ℕ × String))
      (inscribed : Option (ℕ × ℕ × ℕ × String)),
      (create_circle_geometry radius pointAngles pointLabels chords radii
          tangents central inscribed = .error .indexOutOfRange ↔
        ¬ CircleIdxValid pointAngles.length chords radii tangents central
            inscribed) ∧
      (∀ g, create_circle_geometry radius pointAngles pointLabels chords radii
          tangents central inscribed = .ok g →
        CircleIdxValid pointAngles.length chords radii tangents central
          inscribed)) ∧
    (∀ (steps : List FlowStep) (conns : List FlowConn) (dir : FlowDirection)
      (boxW boxH : ℝ),
      (create_flowchart steps conns dir boxW boxH = .error .indexOutOfRange ↔
        ¬ ConnsValid steps.length conns) ∧
      (∀ fc, create_flowchart steps conns dir boxW boxH = .ok fc →
        ConnsValid steps.length conns)) := by
  constructor
  · intro radius pointAngles pointLabels chords radii tangents central inscribed
    by_cases h : CircleIdxValid pointAngles.length chords radii tangents
      central inscribed
    · have hres : (∃ g, create_circle_geometry radius pointAngles pointLabels
          chords radii tangents central inscribed = .ok g) ∨
          create_circle_geometry radius pointAngles pointLabels chords radii
            tangents central inscribed = .error .degenerateAngle := by
        simp only [create_circle_geometry, if_pos h]
        rcases resolveCentral_cases (pointAngles.map (pointOnCircle (0, 0) radius))
            central with ⟨o, ho⟩ | ho
        · rcases resolveInscribed_cases
              (pointAngles.map (pointOnCircle (0, 0) radius)) inscribed with
            ⟨o2, ho2⟩ | ho2
          · rw [ho, ho2]
            exact Or.inl ⟨_, rfl⟩
          · rw [ho, ho2]
            exact Or.inr rfl
        · rw [ho]
          exact Or.inr rfl
      refine ⟨⟨?_, ?_⟩, fun g _ => h⟩
      · intro hbad
        rcases hres with ⟨g, hg⟩ | he
        · rw [hg] at hbad
          simp at hbad
        · rw [he] at hbad
          simp at hbad
      · intro hno
        exact absurd h hno
    · refine ⟨?_, ?_⟩
      · simp only [create_circle_geometry, if_neg h]
        simp [h]
      · intro g hg
        simp only [create_circle_geometry, if_neg h] at hg
        exact absurd hg (by simp)
  · intro steps conns dir boxW boxH
    by_cases h : ConnsValid steps.length conns
    · refine ⟨⟨?_, ?_⟩, fun fc _ => h⟩
      · intro hbad
        simp only [create_flowchart, if_pos h] at hbad
        exact absurd hbad (by simp)
      · intro hno
        exact absurd h hno
    · refine ⟨?_, ?_⟩
      · simp only [create_flowchart, if_neg h]
        simp [h]
      · intro fc hfc
        simp only [create_flowchart, if_neg h] at hfc
        exact absurd hfc (by simp)

/-- Witness for C6: an out-of-range chord index (5 into a 3-point list)
and an out-of-range connection target (5 into a 1-step list) both produce
exactly IndexOutOfRangeError. -/
theorem build_failure_witness :
    ¬ CircleIdxValid ([30, 150, 270] : List ℝ).length [(5, 1, "PQ")] [] []
      none none ∧
    create_circle_geometry 2 [30, 150, 270] [] [(5, 1, "PQ")] [] [] none none =
      .error .indexOutOfRange ∧
    ¬ ConnsValid ([⟨"Start", .start⟩] : List FlowStep).length [⟨0, 5, none⟩] ∧
    create_flowchart [⟨"Start", .start⟩] [⟨0, 5, none⟩] .vertical 1 1 =
      .error .indexOutOfRange := by
  have hnv : ¬ CircleIdxValid ([30, 150, 270] : List ℝ).length [(5, 1, "PQ")]
      [] [] none none := by
    intro hv
    have h5 := (hv.1 (5, 1, "PQ") (List.mem_cons_self _ _)).1
    simp at h5
  have hnf : ¬ ConnsValid ([⟨"Start", .start⟩] : List FlowStep).length
      [⟨0, 5, none⟩] := by
    intro hv
    have h5 := (hv ⟨0, 5, none⟩ (List.mem_cons_self _ _)).2
    simp at h5
  exact ⟨hnv,
    (build_failure_iff_index_out_of_range.1 2 [30, 150, 270] [] [(5, 1, "PQ")]
      [] [] none none).1.mpr hnv,
    hnf,
    (build_failure_iff_index_out_of_range.2 [⟨"Start", .start⟩] [⟨0, 5, none⟩]
      .vertical 1 1).1.mpr hnf⟩

/-- A nonzero vector maps to a nonzero complex number. -/
theorem toC_ne_zero (v : Point) (h : v ≠ ((0 : ℝ), (0 : ℝ))) : toC v ≠ 0 := by
  intro hz
  apply h
  have hre : v.1 = 0 := congrArg Complex.re hz
  have him : v.2 = 0 := congrArg Complex.im hz
  exact Prod.ext_iff.mpr ⟨hre, him⟩

/-- The successful output of the angle-arc resolver, in closed form. -/
theorem resolve_angle_arc_ok_eq (vertex pa pb : Point)
    (h1 : vsub pa vertex ≠ ((0 : ℝ), (0 : ℝ)))
    (h2 : vsub pb vertex ≠ ((0 : ℝ), (0 : ℝ))) :
    resolve_angle_arc vertex pa pb =
      .ok ⟨vertex, 0.4, Complex.arg (toC (vsub pa vertex)),
           Complex.arg (toC (vsub pb vertex) / toC (vsub pa vertex)),
           radToDeg (angleBetweenRad (vsub pa vertex) (vsub pb vertex))⟩ := by
  have hcond : ¬ (vsub pa vertex = ((0 : ℝ), (0 : ℝ)) ∨
      vsub pb vertex = ((0 : ℝ), (0 : ℝ))) := by
    push_neg
    exact ⟨h1, h2⟩
  simp only [resolve_angle_arc, if_neg hcond]

/-- C1: for every valid triple (vertex, rayA, rayB) with nonzero rays,
the resolved angle lies in [0, 180] degrees and the emitted arc sweeps
from the direction of v1 onto the direction of v2 through the shorter
(non-reflex) side (the sweep magnitude never exceeds pi); and for the
right-triangle preset the angle at the designated right-angle vertex
(the third one) is exactly 90 degrees. -/
theorem interior_angle_resolution :
    (∀ vertex pa pb : Point,
      vsub pa vertex ≠ ((0 : ℝ), (0 : ℝ)) →
      vsub pb vertex ≠ ((0 : ℝ), (0 : ℝ)) →
      ∃ arc, resolve_angle_arc vertex pa pb = .ok arc ∧
        0 ≤ arc.angleDeg ∧ arc.angleDeg ≤ 180 ∧
        |arc.sweep| ≤ Real.pi ∧
        ((arc.startDir + arc.sweep : ℝ) : Real.Angle) =
          (Complex.arg (toC (vsub pb vertex)) : Real.Angle)) ∧
    (∃ tri, presetTriangle "right_triangle" = .ok tri ∧
      ∃ arc, resolve_angle_arc (tri.getD 2 (0, 0)) (tri.getD 0 (0, 0))
          (tri.getD 1 (0, 0)) = .ok arc ∧ arc.angleDeg = 90) := by
  constructor
  · intro vertex pa pb h1 h2
    refine ⟨_, resolve_angle_arc_ok_eq vertex pa pb h1 h2, ?_, ?_, ?_, ?_⟩
    · dsimp only
      unfold radToDeg angleBetweenRad
      have h0 := Real.arccos_nonneg (dotP (vsub pa vertex) (vsub pb vertex) /
        (normP (vsub pa vertex) * normP (vsub pb vertex)))
      have hpi := Real.pi_pos
      positivity
    · dsimp only
      unfold radToDeg angleBetweenRad
      rw [div_le_iff Real.pi_pos]
      have hle := Real.arccos_le_pi (dotP (vsub pa vertex) (vsub pb vertex) /
        (normP (vsub pa vertex) * normP (vsub pb vertex)))
      nlinarith [Real.pi_pos]
    · dsimp only
      exact abs_le.mpr ⟨(Complex.neg_pi_lt_arg _).le, Complex.arg_le_pi _⟩
    · dsimp only
      have hz1 : toC (vsub pa vertex) ≠ 0 := toC_ne_zero _ h1
      have hz2 : toC (vsub pb vertex) ≠ 0 := toC_ne_zero _ h2
      have hq : toC (vsub pb vertex) / toC (vsub pa vertex) ≠ 0 :=
        div_ne_zero hz2 hz1
      have harg := Complex.arg_mul_coe_angle hz1 hq
      rw [mul_comm, div_mul_cancel₀ _ hz1] at harg
      rw [Real.Angle.coe_add]
      exact harg.symm
  · refine ⟨[((-2 : ℝ), (2 : ℝ)), ((2 : ℝ), (-1 : ℝ)), ((-2 : ℝ), (-1 : ℝ))],
      ?_, ?_⟩
    · unfold presetTriangle
      rw [if_neg (by decide), if_pos rfl]
    · show ∃ arc, resolve_angle_arc ((-2 : ℝ), (-1 : ℝ)) ((-2 : ℝ), (2 : ℝ))
        ((2 : ℝ), (-1 : ℝ)) = .ok arc ∧ arc.angleDeg = 90
      have hv1 : vsub ((-2 : ℝ), (2 : ℝ)) ((-2 : ℝ), (-1 : ℝ)) =
          ((0 : ℝ), (3 : ℝ)) := by
        simp [vsub]
        norm_num
      have hv2 : vsub ((2 : ℝ), (-1 : ℝ)) ((-2 : ℝ), (-1 : ℝ)) =
          ((4 : ℝ), (0 : ℝ)) := by
        simp [vsub]
        norm_num
      have h1 : vsub ((-2 : ℝ), (2 : ℝ)) ((-2 : ℝ), (-1 : ℝ)) ≠
          ((0 : ℝ), (0 : ℝ)) := by
        rw [hv1]
        simp [Prod.ext_iff]
      have h2 : vsub ((2 : ℝ), (-1 : ℝ)) ((-2 : ℝ), (-1 : ℝ)) ≠
          ((0 : ℝ), (0 : ℝ)) := by
        rw [hv2]
        simp [Prod.ext_iff]
      refine ⟨_, resolve_angle_arc_ok_eq _ _ _ h1 h2, ?_⟩
      dsimp only
      rw [hv1, hv2]
      unfold angleBetweenRad
      have hdot : dotP ((0 : ℝ), (3 : ℝ)) ((4 : ℝ), (0 : ℝ)) = 0 := by
        norm_num [dotP]
      rw [hdot, zero_div, Real.arccos_zero]
      unfold radToDeg
      field_simp
      ring

/-- Witness for C1 at the unit right angle: vertex (0,0), rays to (1,0)
and (0,1). -/
theorem interior_angle_resolution_witness :
    vsub ((1 : ℝ), (0 : ℝ)) ((0 : ℝ), (0 : ℝ)) ≠ ((0 : ℝ), (0 : ℝ)) ∧
    vsub ((0 : ℝ), (1 : ℝ)) ((0 : ℝ), (0 : ℝ)) ≠ ((0 : ℝ), (0 : ℝ)) ∧
    (∃ arc, resolve_angle_arc ((0 : ℝ), (0 : ℝ)) ((1 : ℝ), (0 : ℝ))
        ((0 : ℝ), (1 : ℝ)) = .ok arc ∧
      0 ≤ arc.angleDeg ∧ arc.angleDeg ≤ 180 ∧ |arc.sweep| ≤ Real.pi ∧
      ((arc.startDir + arc.sweep : ℝ) : Real.Angle) =
        (Complex.arg (toC (vsub ((0 : ℝ), (1 : ℝ)) ((0 : ℝ), (0 : ℝ)))) :
          Real.Angle)) := by
  have h1 : vsub ((1 : ℝ), (0 : ℝ)) ((0 : ℝ), (0 : ℝ)) ≠ ((0 : ℝ), (0 : ℝ)) := by
    simp [vsub, Prod.ext_iff]
  have h2 : vsub ((0 : ℝ), (1 : ℝ)) ((0 : ℝ), (0 : ℝ)) ≠ ((0 : ℝ), (0 : ℝ)) := by
    simp [vsub, Prod.ext_iff]
  exact ⟨h1, h2, interior_angle_resolution.1 (0, 0) (1, 0) (0, 1) h1 h2⟩

theorem pointOnCircle_deg0 : pointOnCircle (0, 0) 2 0 = ((2 : ℝ), 0) := by
  unfold pointOnCircle degToRad
  norm_num

theorem pointOnCircle_deg60 :
    pointOnCircle (0, 0) 2 60 = ((1 : ℝ), Real.sqrt 3) := by
  unfold pointOnCircle
  rw [show degToRad 60 = Real.pi / 3 by unfold degToRad; ring,
    Real.cos_pi_div_three, Real.sin_pi_div_three]
  norm_num
  ring

theorem pointOnCircle_deg180 :
    pointOnCircle (0, 0) 2 180 = ((-2 : ℝ), 0) := by
  unfold pointOnCircle
  rw [show degToRad 180 = Real.pi by unfold degToRad; ring, Real.cos_pi,
    Real.sin_pi]
  norm_num

theorem central_angle_value :
    radToDeg (angleBetweenRad ((2 : ℝ), (0 : ℝ)) ((-2 : ℝ), (0 : ℝ))) = 180 := by
  unfold angleBetweenRad
  have hdot : dotP ((2 : ℝ), (0 : ℝ)) ((-2 : ℝ), (0 : ℝ)) = -4 := by
    norm_num [dotP]
  have hn1 : normP ((2 : ℝ), (0 : ℝ)) = 2 := by
    unfold normP
    rw [show ((2 : ℝ) ^ 2 + (0 : ℝ) ^ 2) = 2 ^ 2 by norm_num,
      Real.sqrt_sq (by norm_num : (0 : ℝ) ≤ 2)]
  have hn2 : normP ((-2 : ℝ), (0 : ℝ)) = 2 := by
    unfold normP
    rw [show (((-2) : ℝ) ^ 2 + (0 : ℝ) ^ 2) = 2 ^ 2 by norm_num,
      Real.sqrt_sq (by norm_num : (0 : ℝ) ≤ 2)]
  rw [hdot, hn1, hn2, show ((-4 : ℝ) / (2 * 2)) = -1 by norm_num,
    Real.arccos_neg_one]
  unfold radToDeg
  field_simp

theorem inscribed_angle_value :
    radToDeg (angleBetweenRad ((1 : ℝ), -Real.sqrt 3)
      ((-3 : ℝ), -Real.sqrt 3)) = 90 := by
  unfold angleBetweenRad
  have hdot : dotP ((1 : ℝ), -Real.sqrt 3) ((-3 : ℝ), -Real.sqrt 3) = 0 := by
    unfold dotP
    rw [neg_mul_neg, Real.mul_self_sqrt (by norm_num : (0 : ℝ) ≤ 3)]
    ring
  rw [hdot, zero_div, Real.arccos_zero]
  unfold radToDeg
  field_simp
  ring

/-- C2: for the inscribed-angle example (radius 2, points at 0, 60 and
180 degrees, central angle between points 0 and 2 at the center,
inscribed angle at point 1 with rays to points 0 and 2), the builder
succeeds, the central angle resolves to 180 degrees, and the inscribed
angle resolves to 90 degrees — exactly half the central angle. -/
theorem inscribed_angle_half_central :
    ∃ (g : CircleGeometry) (cA iA : AngleArc),
      create_circle_geometry 2 [0, 60, 180] ["A", "B", "C"] [] [0, 2] []
        (some (0, 2, "2θ")) (some (0, 1, 2, "θ")) = .ok g ∧
      g.centralArc = some cA ∧ g.inscribedArc = some iA ∧
      cA.angleDeg = 180 ∧ iA.angleDeg = 90 ∧ iA.angleDeg = cA.angleDeg / 2 := by
  have hvalid : CircleIdxValid ([0, 60, 180] : List ℝ).length [] [0, 2] []
      (some (0, 2, "2θ")) (some (0, 1, 2, "θ")) := by
    refine ⟨by simp, ?_, by simp, ?_, ?_⟩
    · intro i hi
      fin_cases hi <;> simp
    · intro c hc
      have h := Option.some.inj hc
      subst h
      exact ⟨by simp, by simp⟩
    · intro c hc
      have h := Option.some.inj hc
      subst h
      exact ⟨by simp, by simp, by simp⟩
  have hpts : ([0, 60, 180] : List ℝ).map (pointOnCircle (0, 0) 2) =
      [((2 : ℝ), 0), ((1 : ℝ), Real.sqrt 3), ((-2 : ℝ), 0)] := by
    simp only [List.map_cons, List.map_nil, pointOnCircle_deg0,
      pointOnCircle_deg60, pointOnCircle_deg180]
  have hs1 : vsub ((2 : ℝ), (0 : ℝ)) ((0 : ℝ), (0 : ℝ)) = ((2 : ℝ), (0 : ℝ)) := by
    simp [vsub]
  have hs2 : vsub ((-2 : ℝ), (0 : ℝ)) ((0 : ℝ), (0 : ℝ)) =
      ((-2 : ℝ), (0 : ℝ)) := by
    simp [vsub]
  have hne1 : vsub ((2 : ℝ), (0 : ℝ)) ((0 : ℝ), (0 : ℝ)) ≠
      ((0 : ℝ), (0 : ℝ)) := by
    rw [hs1]
    simp [Prod.ext_iff]
  have hne2 : vsub ((-2 : ℝ), (0 : ℝ)) ((0 : ℝ), (0 : ℝ)) ≠
      ((0 : ℝ), (0 : ℝ)) := by
    rw [hs2]
    simp [Prod.ext_iff]
  have hi1 : vsub ((2 : ℝ), (0 : ℝ)) ((1 : ℝ), Real.sqrt 3) =
      ((1 : ℝ), -Real.sqrt 3) := by
    simp [vsub]
    norm_num
  have hi2 : vsub ((-2 : ℝ), (0 : ℝ)) ((1 : ℝ), Real.sqrt 3) =
      ((-3 : ℝ), -Real.sqrt 3) := by
    simp [vsub]
    norm_num
  have hine1 : vsub ((2 : ℝ), (0 : ℝ)) ((1 : ℝ), Real.sqrt 3) ≠
      ((0 : ℝ), (0 : ℝ)) := by
    rw [hi1]
    simp [Prod.ext_iff]
  have hine2 : vsub ((-2 : ℝ), (0 : ℝ)) ((1 : ℝ), Real.sqrt 3) ≠
      ((0 : ℝ), (0 : ℝ)) := by
    rw [hi2]
    intro h
    have h3 : (-3 : ℝ) = 0 := congrArg Prod.fst h
    norm_num at h3
  have hcentral : resolveCentral
      [((2 : ℝ), 0), ((1 : ℝ), Real.sqrt 3), ((-2 : ℝ), 0)]
      (some (0, 2, "2θ")) =
      .ok (some ⟨((0 : ℝ), (0 : ℝ)), 0.4,
        Complex.arg (toC (vsub ((2 : ℝ), (0 : ℝ)) ((0 : ℝ), (0 : ℝ)))),
        Complex.arg (toC (vsub ((-2 : ℝ), (0 : ℝ)) ((0 : ℝ), (0 : ℝ))) /
          toC (vsub ((2 : ℝ), (0 : ℝ)) ((0 : ℝ), (0 : ℝ)))),
        radToDeg (angleBetweenRad (vsub ((2 : ℝ), (0 : ℝ)) ((0 : ℝ), (0 : ℝ)))
          (vsub ((-2 : ℝ), (0 : ℝ)) ((0 : ℝ), (0 : ℝ))))⟩) := by
    show Except.map some (resolve_angle_arc ((0 : ℝ), (0 : ℝ)) ((2 : ℝ), 0)
      ((-2 : ℝ), 0)) = _
    rw [resolve_angle_arc_ok_eq _ _ _ hne1 hne2]
    rfl
  have hinscribed : resolveInscribed
      [((2 : ℝ), 0), ((1 : ℝ), Real.sqrt 3), ((-2 : ℝ), 0)]
      (some (0, 1, 2, "θ")) =
      .ok (some ⟨((1 : ℝ), Real.sqrt 3), 0.4,
        Complex.arg (toC (vsub ((2 : ℝ), (0 : ℝ)) ((1 : ℝ), Real.sqrt 3))),
        Complex.arg (toC (vsub ((-2 : ℝ), (0 : ℝ)) ((1 : ℝ), Real.sqrt 3)) /
          toC (vsub ((2 : ℝ), (0 : ℝ)) ((1 : ℝ), Real.sqrt 3))),
        radToDeg (angleBetweenRad
          (vsub ((2 : ℝ), (0 : ℝ)) ((1 : ℝ), Real.sqrt 3))
          (vsub ((-2 : ℝ), (0 : ℝ)) ((1 : ℝ), Real.sqrt 3)))⟩) := by
    show Except.map some (resolve_angle_arc ((1 : ℝ), Real.sqrt 3)
      ((2 : ℝ), 0) ((-2 : ℝ), 0)) = _
    rw [resolve_angle_arc_ok_eq _ _ _ hine1 hine2]
    rfl
  have hbuild : create_circle_geometry 2 [0, 60, 180] ["A", "B", "C"] [] [0, 2]
      [] (some (0, 2, "2θ")) (some (0, 1, 2, "θ")) =
      .ok (circleGeometryBody 2 [0, 60, 180] [] [0, 2] []
        (some ⟨((0 : ℝ), (0 : ℝ)), 0.4,
          Complex.arg (toC (vsub ((2 : ℝ), (0 : ℝ)) ((0 : ℝ), (0 : ℝ)))),
          Complex.arg (toC (vsub ((-2 : ℝ), (0 : ℝ)) ((0 : ℝ), (0 : ℝ))) /
            toC (vsub ((2 : ℝ), (0 : ℝ)) ((0 : ℝ), (0 : ℝ)))),
          radToDeg (angleBetweenRad
            (vsub ((2 : ℝ), (0 : ℝ)) ((0 : ℝ), (0 : ℝ)))
            (vsub ((-2 : ℝ), (0 : ℝ)) ((0 : ℝ), (0 : ℝ))))⟩)
        (some ⟨((1 : ℝ), Real.sqrt 3), 0.4,
          Complex.arg (toC (vsub ((2 : ℝ), (0 : ℝ)) ((1 : ℝ), Real.sqrt 3))),
          Complex.arg (toC (vsub ((-2 : ℝ), (0 : ℝ)) ((1 : ℝ), Real.sqrt 3)) /
            toC (vsub ((2 : ℝ), (0 : ℝ)) ((1 : ℝ), Real.sqrt 3))),
          radToDeg (angleBetweenRad
            (vsub ((2 : ℝ), (0 : ℝ)) ((1 : ℝ), Real.sqrt 3))
            (vsub ((-2 : ℝ), (0 : ℝ)) ((1 : ℝ), Real.sqrt 3)))⟩)) := by
    simp only [create_circle_geometry]
    rw [if_pos hvalid, hpts, hcentral, hinscribed]
  refine ⟨_, _, _, hbuild, rfl, rfl, ?_, ?_, ?_⟩
  · show radToDeg (angleBetweenRad (vsub ((2 : ℝ), (0 : ℝ)) ((0 : ℝ), (0 : ℝ)))
      (vsub ((-2 : ℝ), (0 : ℝ)) ((0 : ℝ), (0 : ℝ)))) = 180
    rw [hs1, hs2]
    exact central_angle_value
  · show radToDeg (angleBetweenRad
      (vsub ((2 : ℝ), (0 : ℝ)) ((1 : ℝ), Real.sqrt 3))
      (vsub ((-2 : ℝ), (0 : ℝ)) ((1 : ℝ), Real.sqrt 3))) = 90
    rw [hi1, hi2]
    exact inscribed_angle_value
  · show radToDeg (angleBetweenRad
      (vsub ((2 : ℝ), (0 : ℝ)) ((1 : ℝ), Real.sqrt 3))
      (vsub ((-2 : ℝ), (0 : ℝ)) ((1 : ℝ), Real.sqrt 3))) =
      radToDeg (angleBetweenRad (vsub ((2 : ℝ), (0 : ℝ)) ((0 : ℝ), (0 : ℝ)))
        (vsub ((-2 : ℝ), (0 : ℝ)) ((0 : ℝ), (0 : ℝ)))) / 2
    rw [hs1, hs2, hi1, hi2, central_angle_value, inscribed_angle_value]
    norm_num

end Eduvids
